import Mathlib

/-!
# xinput_calibrator: device scan and calibrator selection

A shallow embedding of `src/main_common.cpp` (`Calibrator::find_device` and
`Calibrator::make_calibrator`), followed by theorems about it.

Conventions of the embedding

* C strings are Lean strings (their content up to the terminating NUL); a
  `const char*` that may be `NULL` is an `Option String`.
* `int` values are `Int`, `unsigned` and `XID` values are `Nat`; conversions
  between them are written out (`to_int`, `to_unsigned`, `to_XID`) for an LP64
  platform (32 bit `int`, 64 bit `long` and `XID`).
* Output (`trace`, `info`, `error`, `usage`), Xlib calls and calibrator
  constructions are recorded, in program order, in an event log.
* `exit(n)`, a read outside an array and an escaping exception are outcomes of
  a run, next to the normal return.
-/

namespace XinputCalibrator

/-! ## libc functions used by the source -/

/-- The `isdigit` of libc: true exactly on the ten ASCII digits. -/
def isdigit (c : Char) : Bool :=
  decide (48 ≤ c.toNat) && decide (c.toNat ≤ 57)

/-- The `isspace` of libc in the C locale: space, and `\t \n \v \f \r`. -/
def isspace (c : Char) : Bool :=
  decide (c.toNat = 32) || (decide (9 ≤ c.toNat) && decide (c.toNat ≤ 13))

/-- Largest `long` (LP64). -/
def LONG_MAX : Int := 2 ^ 63 - 1

/-- Smallest `long` (LP64). -/
def LONG_MIN : Int := -(2 ^ 63)

/-- Conversion of an integer value to `int` (32 bit, two's complement). -/
def to_int (n : Int) : Int := (n + 2 ^ 31) % 2 ^ 32 - 2 ^ 31

/-- Conversion of an integer value to `unsigned` (32 bit). -/
def to_unsigned (n : Int) : Nat := (n % 2 ^ 32).toNat

/-- Conversion of an integer value to `XID`, an `unsigned long` (64 bit). -/
def to_XID (n : Int) : Nat := (n % 2 ^ 64).toNat

/-- Leading white space skipped by `strtol`. -/
def skip_space : List Char → List Char
  | [] => []
  | c :: cs => if isspace c then skip_space cs else c :: cs

/-- The value of the longest prefix of decimal digits, accumulated on `acc`. -/
def digits_value (acc : Nat) : List Char → Nat
  | [] => acc
  | c :: cs => if isdigit c then digits_value (acc * 10 + (c.toNat - 48)) cs else acc

/-- The `strtol(s, NULL, 10)` of libc: white space, an optional sign, decimal
digits; a value outside the range of `long` is clamped to that range. -/
def strtol (s : String) : Int :=
  match skip_space s.data with
  | '-' :: cs => max LONG_MIN (-(digits_value 0 cs : Int))
  | '+' :: cs => min LONG_MAX (digits_value 0 cs : Int)
  | cs => min LONG_MAX (digits_value 0 cs : Int)

/-- The `atoi` of libc, which is `(int) strtol(s, NULL, 10)`. -/
def atoi (s : String) : Int := to_int (strtol s)

/-! ## Data of `calibrator.hh` and of the X Input headers -/

/-- The bounds of one axis (`min`, `max` of the `x` and `y` members of `XYinfo`). -/
structure AxisInfo where
  min : Int
  max : Int
deriving DecidableEq, Repr

/-- The `XYinfo` of calibrator.hh, as far as main_common.cpp uses it. -/
structure XYinfo where
  x : AxisInfo
  y : AxisInfo
deriving DecidableEq, Repr

/-- The four-argument constructor `XYinfo(xmi, xma, ymi, yma)`. -/
def XYinfo.mk4 (xmi xma ymi yma : Int) : XYinfo := ⟨⟨xmi, xma⟩, ⟨ymi, yma⟩⟩

/-- The `OutputType` enumeration of calibrator.hh. -/
inductive OutputType
  | OUTYPE_AUTO
  | OUTYPE_XORGCONFD
  | OUTYPE_HAL
  | OUTYPE_XINPUT
deriving DecidableEq, Repr

/-- One entry of the `axes` array of an `XValuatorInfo`. -/
structure XAxisInfo where
  min_value : Int
  max_value : Int
deriving DecidableEq, Repr

/-- An `XValuatorInfo`: the reporting mode and the `axes` array, which has
`num_axes` entries. -/
structure XValuatorInfo where
  mode : Nat
  axes : List XAxisInfo
deriving DecidableEq, Repr

/-- The `num_axes` member: the number of entries of `axes`. -/
def XValuatorInfo.num_axes (V : XValuatorInfo) : Nat := V.axes.length

/-- One element of the class list of a device: a class whose `c_class` is
`ValuatorClass`, with its valuator data, or a class of another kind. -/
inductive XAnyClass
  | valuator (V : XValuatorInfo)
  | other
deriving DecidableEq, Repr

/-- An `XDeviceInfo`; `inputclassinfo` is the chain of its `num_classes`
class records. -/
structure XDeviceInfo where
  id : Nat
  name : String
  use : Nat
  inputclassinfo : List XAnyClass
deriving DecidableEq, Repr

/-- `IsXPointer` of X11/extensions/XI.h. -/
def IsXPointer : Nat := 0

/-- `IsXKeyboard` of X11/extensions/XI.h. -/
def IsXKeyboard : Nat := 1

/-- `IsXExtensionPointer` of X11/extensions/XI.h (a use value of real devices). -/
def IsXExtensionPointer : Nat := 4

/-- `Relative` of X11/extensions/XI.h. -/
def Relative : Nat := 0

/-- `Absolute` of X11/extensions/XI.h. -/
def Absolute : Nat := 1

/-- `INAME` of X11/extensions/XI.h. -/
def INAME : String := "XInputExtension"

/-- What the X server answers: whether `XOpenDisplay` gives a display, whether
`XQueryExtension` finds the input extension, the version reported by
`XGetExtensionVersion` (if any) and the list of `XListInputDevices`. -/
structure XServer where
  display : Bool
  xinput : Bool
  version : Option (Int × Int)
  devices : List XDeviceInfo
deriving DecidableEq, Repr

/-! ## Events and outcomes -/

/-- An argument of a formatted message. -/
inductive Arg
  | str (s : Option String)
  | int (i : Int)
deriving DecidableEq, Repr

/-- The Xlib calls of `find_device`. -/
inductive XCall
  | XOpenDisplay
  | XQueryExtension
  | XGetExtensionVersion
  | XFree
  | XListInputDevices
  | XFreeDeviceList
  | XCloseDisplay
deriving DecidableEq, Repr

/-- The three calibrator classes. -/
inductive Kind
  | Usbtouchscreen
  | Evdev
  | XorgPrint
deriving DecidableEq, Repr

/-- The arguments handed to a calibrator constructor; `device_id` is given to
`CalibratorEvdev` only. -/
structure CalibArgs where
  device_name : Option String
  device_axys : XYinfo
  device_id : Option Nat
  thr_misclick : Nat
  thr_doubleclick : Nat
  output_type : OutputType
  geometry : Option String
deriving DecidableEq, Repr

/-- A calibrator object: its class and the arguments it was built from. -/
structure Calibrator where
  kind : Kind
  args : CalibArgs
deriving DecidableEq, Repr

/-- What the program does, in order: messages by severity (format string and
arguments), the usage text, Xlib calls, constructor calls. -/
inductive Event
  | trace (fmt : String) (args : List Arg)
  | info (fmt : String) (args : List Arg)
  | error (fmt : String) (args : List Arg)
  | usage (cmd : Option String) (thr_misclick : Nat)
  | xlib (call : XCall)
  | construct (kind : Kind) (args : CalibArgs)
deriving DecidableEq, Repr

/-- How a run ends. -/
inductive Outcome (α : Type)
  | ret (a : α)
  | exit (status : Int)
  | fault
  | raised (what : String)
  | out_of_fuel
deriving DecidableEq, Repr

/-- A run: the events it produced and how it ended. -/
structure Run (α : Type) where
  log : List Event
  out : Outcome α
deriving DecidableEq, Repr

/-! ## `Calibrator::find_device` (lines 57 to 163) -/

/-- The `my_strdup` of lines 40 to 48, with `malloc` succeeding. -/
def my_strdup (s : String) : Option String := some s

/-- Lines 60 and 86 to 95: `pre_device_is_id` starts true and the loop clears
it at the first character that is no digit. -/
def digits_only : List Char → Bool
  | [] => true
  | c :: cs => if !isdigit c then false else digits_only cs

/-- The value of `pre_device_is_id` after lines 86 to 95. -/
def pre_device_is_id (pre_device : Option String) : Bool :=
  match pre_device with
  | none => true
  | some p => digits_only p.data

/-- Lines 107 to 115: whether the device passes the selector. -/
def selector_pass (pre_device : Option String) (is_id : Bool) (list : XDeviceInfo) : Bool :=
  match pre_device with
  | none => true
  | some p =>
    (is_id && decide (list.id = to_XID (atoi p))) ||
    (!is_id && decide (list.name = p))

/-- The state of the scan: the counter, the three output parameters, the log. -/
structure Scan where
  found : Nat
  device_id : Nat
  device_name : Option String
  device_axys : XYinfo
  log : List Event
deriving DecidableEq, Repr

/-- The trace of line 127. -/
def skip_not_absolute (list : XDeviceInfo) : Event :=
  .trace "Skipping device \x27%s\x27 id=%i, does not report Absolute events.\n"
    [.str (some list.name), .int (to_int list.id)]

/-- The trace of line 132. -/
def skip_no_axes (list : XDeviceInfo) : Event :=
  .trace "Skipping device \x27%s\x27 id=%i, does not have two calibratable axes.\n"
    [.str (some list.name), .int (to_int list.id)]

/-- Lines 136 to 145: a calibratable device. -/
def record_found (list_devices : Bool) (list : XDeviceInfo) (ax0 ax1 : XAxisInfo)
    (s : Scan) : Scan :=
  { found := s.found + 1
    device_id := list.id
    device_name := my_strdup list.name
    device_axys := ⟨⟨ax0.min_value, ax0.max_value⟩, ⟨ax1.min_value, ax1.max_value⟩⟩
    log := s.log ++
      (if list_devices then
        [.info "Device \x22%s\x22 id=%i\n" [.str (my_strdup list.name), .int (to_int list.id)]]
      else []) }

/-- Lines 121 to 148, the body of the loop over the classes; `none` is a read
of `ax[k]` with `k` outside the `axes` array. -/
def visit_class (list_devices : Bool) (list : XDeviceInfo) (s : Scan) :
    XAnyClass → Option Scan
  | .other => some s
  | .valuator V =>
    if V.mode ≠ Absolute then
      some { s with log := s.log ++ [skip_not_absolute list] }
    else if V.num_axes < 2 then
      some { s with log := s.log ++ [skip_no_axes list] }
    else
      match V.axes[0]? with
      | none => none
      | some ax0 =>
        if ax0.min_value = -1 ∧ ax0.max_value = -1 then
          some { s with log := s.log ++ [skip_no_axes list] }
        else
          match V.axes[1]? with
          | none => none
          | some ax1 =>
            if ax1.min_value = -1 ∧ ax1.max_value = -1 then
              some { s with log := s.log ++ [skip_no_axes list] }
            else
              some (record_found list_devices list ax0 ax1 s)

/-- Lines 117 to 156: the loop over the classes of one device. -/
def scan_classes (list_devices : Bool) (list : XDeviceInfo) :
    List XAnyClass → Scan → Option Scan
  | [], s => some s
  | any :: rest, s =>
    match visit_class list_devices list s any with
    | none => none
    | some s1 => scan_classes list_devices list rest s1

/-- Lines 101 to 158: the loop over the devices. -/
def scan_devices (pre_device : Option String) (is_id : Bool) (list_devices : Bool) :
    List XDeviceInfo → Scan → Option Scan
  | [], s => some s
  | list :: rest, s =>
    if list.use = IsXKeyboard ∨ list.use = IsXPointer then
      scan_devices pre_device is_id list_devices rest s
    else if selector_pass pre_device is_id list = false then
      scan_devices pre_device is_id list_devices rest s
    else
      match scan_classes list_devices list list.inputclassinfo s with
      | none => none
      | some s1 => scan_devices pre_device is_id list_devices rest s1

/-- Lines 76 to 84: the version trace of verbose mode. -/
def version_log (verbose : Bool) (version : Option (Int × Int)) : List Event :=
  if verbose then
    match version with
    | some (major, minor) =>
      [.xlib .XGetExtensionVersion,
       .trace "%s version is %i.%i\n" [.str (some INAME), .int major, .int minor],
       .xlib .XFree]
    | none => [.xlib .XGetExtensionVersion]
  else []

/-- What `find_device` hands back: the returned count and the three output
parameters. -/
structure Found where
  found : Nat
  device_id : Nat
  device_name : Option String
  device_axys : XYinfo
deriving DecidableEq, Repr

/-- The function `Calibrator::find_device`; the last three arguments are the
values of the output parameters at the call. -/
def find_device (X : XServer) (verbose : Bool) (pre_device : Option String)
    (list_devices : Bool) (device_id : Nat) (device_name : Option String)
    (device_axys : XYinfo) : Run Found :=
  if X.display = false then
    ⟨[.xlib .XOpenDisplay, .error "Unable to connect to X server\n" []], .exit 1⟩
  else if X.xinput = false then
    ⟨[.xlib .XOpenDisplay, .xlib .XQueryExtension,
      .error "X Input extension not available.\n" []], .exit 1⟩
  else
    let s0 : Scan :=
      { found := 0
        device_id := device_id
        device_name := device_name
        device_axys := device_axys
        log := [.xlib .XOpenDisplay, .xlib .XQueryExtension] ++
          version_log verbose X.version ++
          [.trace "Skipping virtual master devices and devices without axis valuators.\n" [],
           .xlib .XListInputDevices] }
    match scan_devices pre_device (pre_device_is_id pre_device) list_devices X.devices s0 with
    | none => ⟨s0.log, .fault⟩
    | some s =>
      ⟨s.log ++ [.xlib .XFreeDeviceList, .xlib .XCloseDisplay],
       .ret ⟨s.found, s.device_id, s.device_name, s.device_axys⟩⟩

/-! ## `Calibrator::make_calibrator` (lines 180 to 375) -/

/-- The result of a calibrator constructor: an object, or the exception
`WrongCalibratorException` with its `what()` text. -/
inductive Built
  | ok
  | wrong (what : String)
deriving DecidableEq, Repr

/-- What main_common.cpp takes from the rest of the program: the global
`verbose` at the call, the value built by the default constructor `XYinfo()`,
the `VERSION` text, the three calibrator constructors of calibrator/*.hpp,
and the X server. -/
structure Env where
  verbose : Bool
  XYinfo_default : XYinfo
  VERSION : String
  CalibratorUsbtouchscreen : CalibArgs → Built
  CalibratorEvdev : CalibArgs → Built
  CalibratorXorgPrint : CalibArgs → Built
  X : XServer

/-- The locals of lines 182 to 190, and the global `verbose`. -/
structure Opts where
  verbose : Bool
  list_devices : Bool
  fake : Bool
  precalib : Bool
  pre_axys : XYinfo
  pre_device : Option String
  geometry : Option String
  thr_misclick : Nat
  thr_doubleclick : Nat
  output_type : OutputType
deriving DecidableEq, Repr

/-- Lines 182 to 190: the values before the arguments are read. -/
def Opts.init (E : Env) : Opts :=
  { verbose := E.verbose
    list_devices := false
    fake := false
    precalib := false
    pre_axys := E.XYinfo_default
    pre_device := none
    geometry := none
    thr_misclick := 15
    thr_doubleclick := 7
    output_type := .OUTYPE_AUTO }

/-- The statement `if (argc > i+1) v = atoi(argv[++i]);` of lines 233 to 240:
the new index and the new value. -/
def read_int (argv : List String) (i : Nat) (old : Int) : Nat × Int :=
  if h : i + 1 < argv.length then (i + 1, atoi argv[i + 1]) else (i, old)

/-- Lines 232 to 240: the option `--precalib`. -/
def read_precalib (argv : List String) (i : Nat) (o : Opts) : Nat × Opts :=
  let r1 := read_int argv i o.pre_axys.x.min
  let r2 := read_int argv r1.1 o.pre_axys.x.max
  let r3 := read_int argv r2.1 o.pre_axys.y.min
  let r4 := read_int argv r3.1 o.pre_axys.y.max
  (r4.1, { o with precalib := true, pre_axys := ⟨⟨r1.2, r2.2⟩, ⟨r3.2, r4.2⟩⟩ })

/-- Lines 196 to 296: the body of the argument loop at index `i`, where
`a` is `argv[i]`. It returns the index and the locals at the end of the body
(before the `i++` of the loop), or exits. -/
def parse_step (E : Env) (argv : List String) (i : Nat) (a : String) (o : Opts) :
    Run (Nat × Opts) :=
  if a = "-h" ∨ a = "--help" then
    ⟨[.error "xinput_calibrator, v%s\n\n" [.str (some E.VERSION)],
      .usage argv[0]? o.thr_misclick], .exit 0⟩
  else if a = "-v" ∨ a = "--verbose" then
    ⟨[], .ret (i, { o with verbose := true })⟩
  else if a = "--list" then
    ⟨[], .ret (i, { o with list_devices := true })⟩
  else if a = "--device" then
    if argv.length > i + 1 then
      ⟨[], .ret (i + 1, { o with pre_device := argv[i + 1]? })⟩
    else
      ⟨[.error "--device needs a device name or id as argument; use --list to list the calibratable input devices.\n\n" [],
        .usage argv[0]? o.thr_misclick], .exit 1⟩
  else if a = "--precalib" then
    ⟨[], .ret (read_precalib argv i o)⟩
  else if a = "--misclick" then
    if h : i + 1 < argv.length then
      ⟨[], .ret (i + 1, { o with thr_misclick := to_unsigned (atoi argv[i + 1]) })⟩
    else
      ⟨[.error "--misclick needs a number (the pixel threshold) as argument. Set to 0 to disable mis-click detection.\n\n" [],
        .usage argv[0]? o.thr_misclick], .exit 1⟩
  else if a = "--output-type" then
    if h : i + 1 < argv.length then
      if argv[i + 1] = "auto" then
        ⟨[], .ret (i + 1, { o with output_type := .OUTYPE_AUTO })⟩
      else if argv[i + 1] = "xorg.conf.d" then
        ⟨[], .ret (i + 1, { o with output_type := .OUTYPE_XORGCONFD })⟩
      else if argv[i + 1] = "hal" then
        ⟨[], .ret (i + 1, { o with output_type := .OUTYPE_HAL })⟩
      else if argv[i + 1] = "xinput" then
        ⟨[], .ret (i + 1, { o with output_type := .OUTYPE_XINPUT })⟩
      else
        ⟨[.error "--output-type needs one of auto|xorg.conf.d|hal|xinput.\n\n" [],
          .usage argv[0]? o.thr_misclick], .exit 1⟩
    else
      ⟨[.error "--output-type needs one argument.\n\n" [],
        .usage argv[0]? o.thr_misclick], .exit 1⟩
  else if a = "--geometry" then
    ⟨[], .ret (i + 1, { o with geometry := argv[i + 1]? })⟩
  else if a = "--fake" then
    ⟨[], .ret (i, { o with fake := true })⟩
  else
    ⟨[.error "Unknown option: %s\n\n" [.str (some a)],
      .usage argv[0]? o.thr_misclick], .exit 0⟩

/-- Lines 193 to 297: the loop `for (int i=1; i!=argc; i++)`. The loop ends
when `i` equals `argc`; reading `argv[i]` at an index that is no argument is a
fault. The first argument bounds the number of iterations. -/
def parse_loop (E : Env) (argv : List String) : Nat → Nat → Opts → List Event → Run Opts
  | 0, _, _, log => ⟨log, .out_of_fuel⟩
  | fuel + 1, i, o, log =>
    if i = argv.length then ⟨log, .ret o⟩
    else
      match argv[i]? with
      | none => ⟨log, .fault⟩
      | some a =>
        let r := parse_step E argv i a o
        match r.out with
        | .ret (i1, o1) => parse_loop E argv fuel (i1 + 1) o1 (log ++ r.log)
        | .exit status => ⟨log ++ r.log, .exit status⟩
        | .fault => ⟨log ++ r.log, .fault⟩
        | .raised what => ⟨log ++ r.log, .raised what⟩
        | .out_of_fuel => ⟨log ++ r.log, .out_of_fuel⟩

/-- Lines 182 to 297: the locals after the argument loop, which starts at
index 1; the loop condition is evaluated at most `argc + 1` times. -/
def parse_args (E : Env) (argv : List String) : Run Opts :=
  parse_loop E argv (argv.length + 1) 1 (Opts.init E) []

/-- The device chosen by lines 299 to 335. -/
structure Device where
  device_id : Nat
  device_name : Option String
  device_axys : XYinfo
deriving DecidableEq, Repr

/-- The error of line 325. -/
def no_device_error : Event :=
  .error "Error: No calibratable devices found.\n" []

/-- The error of line 327. -/
def device_not_found_error (pre_device : String) : Event :=
  .error "Error: Device \x22%s\x22 not found; use --list to list the calibratable input devices.\n"
    [.str (some pre_device)]

/-- The warning of line 331. -/
def multiple_devices_warning (device_name : Option String) : Event :=
  .info "Warning: multiple calibratable devices found, calibrating last one (%s)\n\tuse --device to select another one.\n"
    [.str device_name]

/-- Lines 299 to 335: choose the device to calibrate. -/
def choose_device (E : Env) (o : Opts) : Run Device :=
  if o.fake then
    ⟨[.trace "Faking device: %s\n" [.str (some "Fake_device")]],
     .ret ⟨to_XID (-1), some "Fake_device", XYinfo.mk4 0 1000 0 1000⟩⟩
  else
    let r := find_device E.X o.verbose o.pre_device o.list_devices
      (to_XID (-1)) none E.XYinfo_default
    match r.out with
    | .ret f =>
      if o.list_devices then
        ⟨r.log ++ (if f.found = 0 then [.error "No calibratable devices found.\n" []] else []),
         .exit 0⟩
      else if f.found = 0 then
        ⟨r.log ++
          [match o.pre_device with
           | none => no_device_error
           | some p => device_not_found_error p],
         .exit 1⟩
      else
        ⟨r.log ++
          (if f.found > 1 then [multiple_devices_warning f.device_name] else []) ++
          [.trace "Selected device: %s\n" [.str f.device_name]],
         .ret ⟨f.device_id, f.device_name, f.device_axys⟩⟩
    | .exit status => ⟨r.log, .exit status⟩
    | .fault => ⟨r.log, .fault⟩
    | .raised what => ⟨r.log, .raised what⟩
    | .out_of_fuel => ⟨r.log, .out_of_fuel⟩

/-- Lines 339 to 346: the four conditional assignments. -/
def override_axys (pre_axys device_axys : XYinfo) : XYinfo :=
  let a1 : XYinfo :=
    if pre_axys.x.min ≠ -1 then ⟨⟨pre_axys.x.min, device_axys.x.max⟩, device_axys.y⟩
    else device_axys
  let a2 : XYinfo :=
    if pre_axys.x.max ≠ -1 then ⟨⟨a1.x.min, pre_axys.x.max⟩, a1.y⟩ else a1
  let a3 : XYinfo :=
    if pre_axys.y.min ≠ -1 then ⟨a2.x, ⟨pre_axys.y.min, a2.y.max⟩⟩ else a2
  if pre_axys.y.max ≠ -1 then ⟨a3.x, ⟨a3.y.min, pre_axys.y.max⟩⟩ else a3

/-- Lines 337 to 351: the axes after the command line override, and the
trace of line 348. -/
def apply_precalib (o : Opts) (device_axys : XYinfo) : XYinfo × List Event :=
  if o.precalib then
    let a := override_axys o.pre_axys device_axys
    (a, [.trace "Setting precalibration: %i, %i, %i, %i\n"
      [.int a.x.min, .int a.x.max, .int a.y.min, .int a.y.max]])
  else (device_axys, [])

/-- Lines 353 to 375: the three constructors in order; a
`WrongCalibratorException` of the first two is caught and traced, one of the
third escapes. -/
def strategy_chain (E : Env) (o : Opts) (d : Device) (device_axys : XYinfo) :
    Run Calibrator :=
  let a1 : CalibArgs :=
    ⟨d.device_name, device_axys, none, o.thr_misclick, o.thr_doubleclick,
     o.output_type, o.geometry⟩
  let a2 : CalibArgs :=
    ⟨d.device_name, device_axys, some d.device_id, o.thr_misclick, o.thr_doubleclick,
     o.output_type, o.geometry⟩
  match E.CalibratorUsbtouchscreen a1 with
  | .ok => ⟨[.construct .Usbtouchscreen a1], .ret ⟨.Usbtouchscreen, a1⟩⟩
  | .wrong what1 =>
    match E.CalibratorEvdev a2 with
    | .ok =>
      ⟨[.construct .Usbtouchscreen a1,
        .trace "Not usbtouchscreen calibrator: %s\n" [.str (some what1)],
        .construct .Evdev a2], .ret ⟨.Evdev, a2⟩⟩
    | .wrong what2 =>
      match E.CalibratorXorgPrint a1 with
      | .ok =>
        ⟨[.construct .Usbtouchscreen a1,
          .trace "Not usbtouchscreen calibrator: %s\n" [.str (some what1)],
          .construct .Evdev a2,
          .trace "Not evdev calibrator: %s\n" [.str (some what2)],
          .construct .XorgPrint a1], .ret ⟨.XorgPrint, a1⟩⟩
      | .wrong what3 =>
        ⟨[.construct .Usbtouchscreen a1,
          .trace "Not usbtouchscreen calibrator: %s\n" [.str (some what1)],
          .construct .Evdev a2,
          .trace "Not evdev calibrator: %s\n" [.str (some what2)],
          .construct .XorgPrint a1], .raised what3⟩

/-- Lines 299 to 375: what follows the argument loop. -/
def after_parse (E : Env) (o : Opts) : Run Calibrator :=
  let r := choose_device E o
  match r.out with
  | .ret d =>
    let m := apply_precalib o d.device_axys
    let c := strategy_chain E o d m.1
    ⟨r.log ++ m.2 ++ c.log, c.out⟩
  | .exit status => ⟨r.log, .exit status⟩
  | .fault => ⟨r.log, .fault⟩
  | .raised what => ⟨r.log, .raised what⟩
  | .out_of_fuel => ⟨r.log, .out_of_fuel⟩

/-- The function `Calibrator::make_calibrator(argc, argv)`, with `argc` the
length of `argv`. -/
def make_calibrator (E : Env) (argv : List String) : Run Calibrator :=
  let p := parse_args E argv
  match p.out with
  | .ret o =>
    let r := after_parse E o
    ⟨p.log ++ r.log, r.out⟩
  | .exit status => ⟨p.log, .exit status⟩
  | .fault => ⟨p.log, .fault⟩
  | .raised what => ⟨p.log, .raised what⟩
  | .out_of_fuel => ⟨p.log, .out_of_fuel⟩

/-- The constructor calls of a log, in order. -/
def constructions : List Event → List (Kind × CalibArgs)
  | [] => []
  | .construct k a :: rest => (k, a) :: constructions rest
  | _ :: rest => constructions rest

/-- The Xlib calls of a log, in order. -/
def xlib_calls : List Event → List XCall
  | [] => []
  | .xlib c :: rest => c :: xlib_calls rest
  | _ :: rest => xlib_calls rest

/-! ## The vocabulary of the specification -/

/-- A device flagged as a virtual keyboard or virtual pointer aggregate. -/
def is_virtual (d : XDeviceInfo) : Bool :=
  decide (d.use = IsXKeyboard) || decide (d.use = IsXPointer)

/-- An axis with at least one bound different from -1. -/
def axis_supported (a : XAxisInfo) : Bool :=
  !(decide (a.min_value = -1) && decide (a.max_value = -1))

/-- A valuator in absolute mode, with at least two axes, whose axis 0 and
axis 1 both have at least one bound different from -1. -/
def calibratable (V : XValuatorInfo) : Bool :=
  match V.axes with
  | ax0 :: ax1 :: _ => decide (V.mode = Absolute) && axis_supported ax0 && axis_supported ax1
  | _ => false

/-- A class record that is a calibratable valuator. -/
def class_calibratable : XAnyClass → Bool
  | .valuator V => calibratable V
  | .other => false

/-- A device with a calibratable valuator among its classes. -/
def device_calibratable (d : XDeviceInfo) : Bool :=
  d.inputclassinfo.any class_calibratable

/-- The number a string of decimal digits denotes. -/
def decimal_value (s : String) : Nat :=
  s.data.foldl (fun n c => 10 * n + (c.toNat - 48)) 0

/-- The descriptor a class record of device `d` stands for, when the record is
a calibratable valuator: the id and name of `d`, axis 0 as x and axis 1 as y. -/
def class_hit (d : XDeviceInfo) : XAnyClass → Option Device
  | .valuator V =>
    match V.axes with
    | ax0 :: ax1 :: _ =>
      if calibratable V then
        some ⟨d.id, some d.name,
          ⟨⟨ax0.min_value, ax0.max_value⟩, ⟨ax1.min_value, ax1.max_value⟩⟩⟩
      else none
    | _ => none
  | .other => none

/-- The descriptors of the calibratable valuators of the devices that are not
virtual and pass the selector, in enumeration order. -/
def all_hits (pre_device : Option String) (is_id : Bool) : List XDeviceInfo → List Device
  | [] => []
  | d :: rest =>
    (if is_virtual d || !selector_pass pre_device is_id d then []
     else d.inputclassinfo.filterMap (class_hit d)) ++ all_hits pre_device is_id rest

/-- The counter and the output parameters after one more match. -/
def Found.record (f : Found) (h : Device) : Found :=
  ⟨f.found + 1, h.device_id, h.device_name, h.device_axys⟩

/-- The counter and the output parameters held by a scan state. -/
def Scan.core (s : Scan) : Found :=
  ⟨s.found, s.device_id, s.device_name, s.device_axys⟩

/-- The merge in the words of the specification: a bound is the override when
the override is not the sentinel -1, and the discovered bound otherwise. -/
def pick_bound (override discovered : Int) : Int :=
  if override ≠ -1 then override else discovered

/-- The field by field merge of precalibration overrides onto discovered axes. -/
def merge_spec (override discovered : XYinfo) : XYinfo :=
  ⟨⟨pick_bound override.x.min discovered.x.min, pick_bound override.x.max discovered.x.max⟩,
   ⟨pick_bound override.y.min discovered.y.min, pick_bound override.y.max discovered.y.max⟩⟩

/-- An event that is an `error` message or the usage text. -/
def Event.is_diagnostic : Event → Bool
  | .error _ _ => true
  | .usage _ _ => true
  | _ => false

/-- An event that is a constructor call. -/
def Event.is_construct : Event → Bool
  | .construct _ _ => true
  | _ => false

/-! ## Concrete inputs -/

/-- The output axes before a scan, all four bounds unset. -/
def unset_axys : XYinfo := XYinfo.mk4 (-1) (-1) (-1) (-1)

/-- A touchscreen: an extension pointer with an absolute two-axis valuator. -/
def touchscreen : XDeviceInfo :=
  ⟨12, "touchscreen", IsXExtensionPointer,
   [.other, .valuator ⟨Absolute, [⟨0, 100⟩, ⟨0, 200⟩]⟩]⟩

/-- A mouse: an extension pointer with a relative valuator. -/
def mouse : XDeviceInfo :=
  ⟨11, "mouse", IsXExtensionPointer,
   [.other, .valuator ⟨Relative, [⟨-1, -1⟩, ⟨-1, -1⟩]⟩]⟩

/-- A virtual master pointer that reports an absolute two-axis valuator. -/
def core_pointer : XDeviceInfo :=
  ⟨2, "Virtual core pointer", IsXPointer,
   [.other, .valuator ⟨Absolute, [⟨0, 65535⟩, ⟨0, 65535⟩]⟩]⟩

/-- A tablet with 22 absolute axes, which the device list reports as two
valuator records, one of 20 axes and one of 2 axes. -/
def tablet : XDeviceInfo :=
  ⟨9, "tablet", IsXExtensionPointer,
   [.valuator ⟨Absolute, List.replicate 20 ⟨0, 4095⟩⟩,
    .valuator ⟨Absolute, [⟨0, 50⟩, ⟨0, 60⟩]⟩]⟩

/-- A device whose name is the digit string 12 and whose identifier is 13. -/
def named_twelve : XDeviceInfo :=
  ⟨13, "12", IsXExtensionPointer,
   [.valuator ⟨Absolute, [⟨0, 300⟩, ⟨0, 400⟩]⟩]⟩

/-- A panel whose two axes both range over 0 to 100. -/
def panel : XDeviceInfo :=
  ⟨10, "panel", IsXExtensionPointer,
   [.valuator ⟨Absolute, [⟨0, 100⟩, ⟨0, 100⟩]⟩]⟩

/-- A dial: an extension device whose valuator has one absolute axis. -/
def dial : XDeviceInfo :=
  ⟨14, "dial", IsXExtensionPointer, [.valuator ⟨Absolute, [⟨0, 255⟩]⟩]⟩

/-- An X server with a display and the input extension, listing `devices`. -/
def server (devices : List XDeviceInfo) : XServer :=
  ⟨true, true, none, devices⟩

/-- An environment in which the first two calibrators reject every device and
the third accepts. -/
def env_fallback (X : XServer) : Env :=
  { verbose := false
    XYinfo_default := unset_axys
    VERSION := "0.7.5"
    CalibratorUsbtouchscreen := fun _ => .wrong "Not a usbtouchscreen device"
    CalibratorEvdev := fun _ => .wrong "Evdev: not a calibratable evdev device"
    CalibratorXorgPrint := fun _ => .ok
    X := X }

/-- An environment in which the first calibrator accepts every device. -/
def env_usb (X : XServer) : Env :=
  { verbose := false
    XYinfo_default := unset_axys
    VERSION := "0.7.5"
    CalibratorUsbtouchscreen := fun _ => .ok
    CalibratorEvdev := fun _ => .ok
    CalibratorXorgPrint := fun _ => .ok
    X := X }

/-- The program name used in the examples. -/
def prog : String := "xinput_calibrator"

/-- An environment in which the first calibrator rejects every device and the
second accepts. -/
def env_evdev (X : XServer) : Env :=
  { verbose := false
    XYinfo_default := unset_axys
    VERSION := "0.7.5"
    CalibratorUsbtouchscreen := fun _ => .wrong "Not a usbtouchscreen device"
    CalibratorEvdev := fun _ => .ok
    CalibratorXorgPrint := fun _ => .ok
    X := X }

/-! ## Views of a log -/

/-- The Xlib call of an event, if it is one. -/
def xlib_of : Event → Option XCall
  | .xlib c => some c
  | _ => none

/-- An event, if it is an `info` message. -/
def info_of : Event → Option Event
  | .info fmt args => some (.info fmt args)
  | _ => none

/-- The `info` messages of a log, in order. -/
def infos (log : List Event) : List Event := log.filterMap info_of

/-- The number of times a log opens the display: `find_device` opens it once,
as its first action, and nothing else does. -/
def scan_count (log : List Event) : Nat := (xlib_calls log).count XCall.XOpenDisplay

/-- The options that the chain of `strcmp` tests of lines 196 to 287 knows. -/
def known_options : List String :=
  ["-h", "--help", "-v", "--verbose", "--list", "--device", "--precalib", "--misclick",
   "--output-type", "--geometry", "--fake"]

/-- A run of the loop body either exits or ends normally with an index and
locals that satisfy `Q`. -/
def StepInv (Q : Nat → Opts → Prop) (r : Run (Nat × Opts)) : Prop :=
  match r.out with
  | .ret p => Q p.1 p.2
  | .exit _ => True
  | _ => False

/-! ## Facts about `find_device` -/

theorem visit_class_core (ld : Bool) (d : XDeviceInfo) (s : Scan) (any : XAnyClass) :
    ∃ s1, visit_class ld d s any = some s1 ∧
      s1.core = (match class_hit d any with
        | some h => s.core.record h
        | none => s.core) := by
  cases any with
  | other => exact ⟨s, rfl, rfl⟩
  | valuator V =>
    rcases V with ⟨mode, axes⟩
    rcases axes with _ | ⟨a0, _ | ⟨a1, rest⟩⟩
    · by_cases hm : mode = Absolute <;>
        simp [visit_class, class_hit, XValuatorInfo.num_axes, Scan.core, hm]
    · by_cases hm : mode = Absolute <;>
        simp [visit_class, class_hit, XValuatorInfo.num_axes, Scan.core, hm]
    · by_cases hm : mode = Absolute
      · by_cases h0 : a0.min_value = -1 ∧ a0.max_value = -1
        · simp [visit_class, class_hit, XValuatorInfo.num_axes, Scan.core, hm, h0,
            calibratable, axis_supported]
        · by_cases h1 : a1.min_value = -1 ∧ a1.max_value = -1
          · simp [visit_class, class_hit, XValuatorInfo.num_axes, Scan.core, hm, h0, h1,
              calibratable, axis_supported]
          · have hlen : ¬ (rest.length + 1 + 1 < 2) := by omega
            have h0a : ¬ a0.min_value = -1 ∨ ¬ a0.max_value = -1 := by tauto
            have h1a : ¬ a1.min_value = -1 ∨ ¬ a1.max_value = -1 := by tauto
            simp [visit_class, class_hit, XValuatorInfo.num_axes, Scan.core, hm, h0, h1,
              calibratable, axis_supported, record_found, Found.record, my_strdup, hlen,
              h0a, h1a]
      · simp [visit_class, class_hit, XValuatorInfo.num_axes, Scan.core, hm, calibratable]

theorem scan_classes_core (ld : Bool) (d : XDeviceInfo) (cls : List XAnyClass) :
    ∀ s : Scan, ∃ s1, scan_classes ld d cls s = some s1 ∧
      s1.core = (cls.filterMap (class_hit d)).foldl Found.record s.core := by
  induction cls with
  | nil => intro s; exact ⟨s, rfl, rfl⟩
  | cons any rest ih =>
    intro s
    obtain ⟨s1, h1, c1⟩ := visit_class_core ld d s any
    obtain ⟨s2, h2, c2⟩ := ih s1
    refine ⟨s2, ?_, ?_⟩
    · simp [scan_classes, h1, h2]
    · rw [c2, c1]
      cases hh : class_hit d any <;> simp [List.filterMap_cons, hh]

theorem scan_devices_core (pd : Option String) (isid ld : Bool) (devs : List XDeviceInfo) :
    ∀ s : Scan, ∃ s1, scan_devices pd isid ld devs s = some s1 ∧
      s1.core = (all_hits pd isid devs).foldl Found.record s.core := by
  induction devs with
  | nil => intro s; exact ⟨s, rfl, rfl⟩
  | cons d rest ih =>
    intro s
    by_cases hv : d.use = IsXKeyboard ∨ d.use = IsXPointer
    · obtain ⟨s1, h1, c1⟩ := ih s
      refine ⟨s1, ?_, ?_⟩
      · simp [scan_devices, hv, h1]
      · have : is_virtual d = true := by
          simpa [is_virtual] using hv
        simp [all_hits, this, c1]
    · have hnv : is_virtual d = false := by
        simpa [is_virtual] using hv
      by_cases hp : selector_pass pd isid d = false
      · obtain ⟨s1, h1, c1⟩ := ih s
        refine ⟨s1, ?_, ?_⟩
        · simp [scan_devices, hv, hp, h1]
        · simp [all_hits, hp, c1]
      · obtain ⟨s1, h1, c1⟩ := scan_classes_core ld d d.inputclassinfo s
        obtain ⟨s2, h2, c2⟩ := ih s1
        refine ⟨s2, ?_, ?_⟩
        · simp [scan_devices, hv, hp, h1, h2]
        · have hp1 : selector_pass pd isid d = true := by simpa using hp
          simp [all_hits, hnv, hp1, c2, c1, List.foldl_append]

/-- With a display and the input extension, `find_device` returns, and what it
returns is the initial output overwritten by each hit in turn. -/
theorem find_device_out (X : XServer) (hd : X.display = true) (hx : X.xinput = true)
    (verbose : Bool) (pd : Option String) (ld : Bool) (id : Nat) (nm : Option String)
    (ax : XYinfo) :
    (find_device X verbose pd ld id nm ax).out =
      .ret ((all_hits pd (pre_device_is_id pd) X.devices).foldl Found.record ⟨0, id, nm, ax⟩) := by
  unfold find_device
  simp only [hd, hx, Bool.true_eq_false, if_false]
  obtain ⟨s1, h1, c1⟩ := scan_devices_core pd (pre_device_is_id pd) ld X.devices
    { found := 0, device_id := id, device_name := nm, device_axys := ax,
      log := [.xlib .XOpenDisplay, .xlib .XQueryExtension] ++
          version_log verbose X.version ++
          [.trace "Skipping virtual master devices and devices without axis valuators.\n" [],
           .xlib .XListInputDevices] }
  simp only [h1]
  simp only [Scan.core] at c1
  rw [← c1]

theorem find_device_out_cases (X : XServer) (verbose : Bool) (pd : Option String)
    (ld : Bool) (id : Nat) (nm : Option String) (ax : XYinfo) :
    (find_device X verbose pd ld id nm ax).out =
      if X.display = false then .exit 1
      else if X.xinput = false then .exit 1
      else .ret ((all_hits pd (pre_device_is_id pd) X.devices).foldl Found.record
        ⟨0, id, nm, ax⟩) := by
  by_cases hd : X.display = false
  · simp [find_device, hd]
  · by_cases hx : X.xinput = false
    · simp [find_device, hd, hx]
    · rw [find_device_out X (by simpa using hd) (by simpa using hx)]
      simp [hd, hx]

theorem class_hit_isSome (d : XDeviceInfo) (any : XAnyClass) :
    (class_hit d any).isSome = class_calibratable any := by
  cases any with
  | other => rfl
  | valuator V =>
    rcases V with ⟨mode, axes⟩
    rcases axes with _ | ⟨a0, _ | ⟨a1, rest⟩⟩
    · rfl
    · rfl
    · simp only [class_hit, class_calibratable]
      split <;> simp_all

theorem filterMap_class_hit_filter (d : XDeviceInfo) (cls : List XAnyClass) :
    cls.filterMap (class_hit d) = (cls.filter class_calibratable).filterMap (class_hit d) := by
  induction cls with
  | nil => rfl
  | cons any rest ih =>
    have h := class_hit_isSome d any
    cases hh : class_hit d any with
    | none =>
      have hc : class_calibratable any = false := by rw [← h, hh]; rfl
      simp [List.filterMap_cons, hh, List.filter_cons, hc, ih]
    | some v =>
      have hc : class_calibratable any = true := by rw [← h, hh]; rfl
      simp [List.filterMap_cons, hh, List.filter_cons, hc, ih]

theorem hits_of_not_calibratable (d : XDeviceInfo) (h : device_calibratable d = false) :
    d.inputclassinfo.filterMap (class_hit d) = [] := by
  rw [filterMap_class_hit_filter]
  have : d.inputclassinfo.filter class_calibratable = [] := by
    rw [List.filter_eq_nil_iff]
    intro a ha hc
    have : device_calibratable d = true := by
      simp only [device_calibratable, List.any_eq_true]
      exact ⟨a, ha, hc⟩
    rw [h] at this
    exact Bool.noConfusion this
  rw [this]
  rfl

theorem scan_devices_skip_virtual (pd : Option String) (isid ld : Bool) (d : XDeviceInfo)
    (hv : is_virtual d = true) (post : List XDeviceInfo) :
    ∀ (pre : List XDeviceInfo) (s : Scan),
      scan_devices pd isid ld (pre ++ d :: post) s = scan_devices pd isid ld (pre ++ post) s := by
  intro pre
  induction pre with
  | nil =>
    intro s
    have : d.use = IsXKeyboard ∨ d.use = IsXPointer := by simpa [is_virtual] using hv
    simp [scan_devices, this]
  | cons e rest ih =>
    intro s
    by_cases he : e.use = IsXKeyboard ∨ e.use = IsXPointer
    · simp [scan_devices, he, ih]
    · by_cases hp : selector_pass pd isid e = false
      · simp [scan_devices, he, hp, ih]
      · cases hc : scan_classes ld e e.inputclassinfo s with
        | none => simp [scan_devices, he, hp, hc]
        | some s1 => simp [scan_devices, he, hp, hc, ih]

theorem scan_devices_filter (p : String) (isid ld : Bool) (q : XDeviceInfo → Bool)
    (hq : ∀ d, selector_pass (some p) isid d = q d) (devs : List XDeviceInfo) :
    ∀ s : Scan, scan_devices (some p) isid ld devs s =
      scan_devices none true ld (devs.filter q) s := by
  induction devs with
  | nil => intro s; rfl
  | cons d rest ih =>
    intro s
    by_cases hv : d.use = IsXKeyboard ∨ d.use = IsXPointer
    · cases hqd : q d with
      | false => simp [scan_devices, hv, List.filter_cons, hqd, ih]
      | true => simp [scan_devices, hv, List.filter_cons, hqd, ih]
    · cases hqd : q d with
      | false => simp [scan_devices, hv, List.filter_cons, hqd, ih, hq]
      | true =>
        have hp : selector_pass (some p) isid d = true := by rw [hq, hqd]
        have hn : selector_pass none true d = true := rfl
        cases hc : scan_classes ld d d.inputclassinfo s with
        | none => simp [scan_devices, hv, List.filter_cons, hqd, hp, hn, hc]
        | some s1 => simp [scan_devices, hv, List.filter_cons, hqd, hp, hn, hc, ih]

theorem find_device_filter (p : String) (q : XDeviceInfo → Bool)
    (hq : ∀ d, selector_pass (some p) (pre_device_is_id (some p)) d = q d)
    (X : XServer) (verbose ld : Bool) (id : Nat) (nm : Option String) (ax : XYinfo) :
    find_device X verbose (some p) ld id nm ax =
      find_device { X with devices := X.devices.filter q } verbose none ld id nm ax := by
  have h := scan_devices_filter p (pre_device_is_id (some p)) ld q hq X.devices
  unfold find_device
  simp only [h]
  rfl

/-! ## The device scan: claims C1 to C4 -/

/-- C2, the code at a tablet with 22 absolute axes, listed as two valuator
records: one device qualifies, `find_device` returns 2, and the output axes
are axis 0 and axis 1 of the second record (axes 20 and 21 of the device). -/
theorem find_device_counts_valuator_records :
    ((server [tablet]).devices.filter
      (fun d => !is_virtual d && device_calibratable d)).length = 1 ∧
    (find_device (server [tablet]) false none false 0 none unset_axys).out =
      .ret ⟨2, 9, some "tablet", XYinfo.mk4 0 50 0 60⟩ := by
  decide

/-- C3: a device flagged as virtual keyboard or virtual pointer is never
returned, whatever its classes: for every device list, selector and initial
output, the run of `find_device` (count, output parameters and log) is the
run on the list without that device. -/
theorem virtual_device_never_returned (d : XDeviceInfo) (hv : is_virtual d = true)
    (display xinput : Bool) (version : Option (Int × Int)) (pre post : List XDeviceInfo)
    (verbose : Bool) (pd : Option String) (ld : Bool) (id : Nat) (nm : Option String)
    (ax : XYinfo) :
    find_device ⟨display, xinput, version, pre ++ d :: post⟩ verbose pd ld id nm ax =
      find_device ⟨display, xinput, version, pre ++ post⟩ verbose pd ld id nm ax := by
  unfold find_device
  simp only [scan_devices_skip_virtual pd (pre_device_is_id pd) ld d hv post pre]

/-- C3 at the virtual core pointer, between a mouse and a touchscreen. -/
theorem virtual_device_never_returned_witness :
    is_virtual core_pointer = true ∧
    find_device ⟨true, true, none, [mouse] ++ core_pointer :: [touchscreen]⟩
        false none false 0 none unset_axys =
      find_device ⟨true, true, none, [mouse] ++ [touchscreen]⟩
        false none false 0 none unset_axys :=
  ⟨by decide,
   virtual_device_never_returned core_pointer (by decide) true true none [mouse] [touchscreen]
     false none false 0 none unset_axys⟩

theorem digits_only_of_all (cs : List Char) (h : ∀ c ∈ cs, isdigit c = true) :
    digits_only cs = true := by
  induction cs with
  | nil => rfl
  | cons c rest ih =>
    have hc : isdigit c = true := h c (List.mem_cons_self c rest)
    have hr : digits_only rest = true := ih (fun x hx => h x (List.mem_cons_of_mem c hx))
    simp [digits_only, hc, hr]

theorem digits_only_of_exists (cs : List Char) (h : ∃ c ∈ cs, isdigit c = false) :
    digits_only cs = false := by
  induction cs with
  | nil => simp at h
  | cons c rest ih =>
    cases hc : isdigit c with
    | false => simp [digits_only, hc]
    | true =>
      obtain ⟨x, hx, hxd⟩ := h
      rcases List.mem_cons.mp hx with rfl | hx
      · rw [hc] at hxd; exact Bool.noConfusion hxd
      · simp [digits_only, hc, ih ⟨x, hx, hxd⟩]

theorem digits_value_eq_foldl (cs : List Char) (h : ∀ c ∈ cs, isdigit c = true) :
    ∀ acc, digits_value acc cs = cs.foldl (fun n c => 10 * n + (c.toNat - 48)) acc := by
  induction cs with
  | nil => intro acc; rfl
  | cons c rest ih =>
    intro acc
    have hc : isdigit c = true := h c (List.mem_cons_self c rest)
    simp only [digits_value, hc, if_true, List.foldl_cons]
    rw [ih (fun x hx => h x (List.mem_cons_of_mem c hx)), Nat.mul_comm]

theorem strtol_of_digits (s : String) (h : ∀ c ∈ s.data, isdigit c = true) :
    strtol s = min LONG_MAX (decimal_value s : Int) := by
  unfold strtol decimal_value
  cases hs : s.data with
  | nil => rfl
  | cons c rest =>
    rw [hs] at h
    have hc : isdigit c = true := h c (List.mem_cons_self c rest)
    have hb : 48 ≤ c.toNat := by
      simp only [isdigit, Bool.and_eq_true, decide_eq_true_eq] at hc
      exact hc.1
    have hsp : isspace c = false := by
      simp only [isspace, Bool.or_eq_false_iff, Bool.and_eq_false_iff, decide_eq_false_iff_not]
      omega
    have hminus : c ≠ '-' := by
      intro e; rw [e] at hb; revert hb; decide
    have hplus : c ≠ '+' := by
      intro e; rw [e] at hb; revert hb; decide
    simp only [skip_space, hsp, Bool.false_eq_true, if_false]
    split
    · rename_i heq
      simp at heq
      exact absurd heq.1 hminus
    · rename_i heq
      simp at heq
      exact absurd heq.1 hplus
    · rw [digits_value_eq_foldl (c :: rest) h 0]

theorem atoi_of_digits (s : String) (h : ∀ c ∈ s.data, isdigit c = true)
    (hv : decimal_value s < 2 ^ 31) : to_XID (atoi s) = decimal_value s := by
  unfold atoi
  rw [strtol_of_digits s h]
  have h1 : min LONG_MAX (decimal_value s : Int) = (decimal_value s : Int) := by
    apply min_eq_right
    unfold LONG_MAX
    omega
  rw [h1]
  unfold to_int to_XID
  omega

/-- C5, refuted as stated: the selector 4294967308 is composed of digits, the
touchscreen has identifier 12, which is not the number the selector denotes,
and it passes the selector filter and is returned by `find_device`. -/
theorem digit_selector_counterexample :
    (∀ c ∈ "4294967308".data, isdigit c = true) ∧
    decimal_value "4294967308" = 4294967308 ∧
    touchscreen.id = 12 ∧
    selector_pass (some "4294967308") (pre_device_is_id (some "4294967308")) touchscreen
      = true ∧
    (find_device (server [touchscreen]) false (some "4294967308") false 0 none
        unset_axys).out =
      .ret ⟨1, 12, some "touchscreen", XYinfo.mk4 0 100 0 200⟩ := by
  decide

/-- C5, as amended: for a selector composed entirely of digits whose number is
at most 2147483647, the selector is taken as an identifier, a device passes
the filter exactly when its identifier is that number, and `find_device` with
the selector is `find_device` without selector on the devices having that
identifier: the name of a device plays no part. -/
theorem digit_selector_matches_id (s : String) (hs : ∀ c ∈ s.data, isdigit c = true)
    (hv : decimal_value s < 2 ^ 31) :
    pre_device_is_id (some s) = true ∧
    (∀ d : XDeviceInfo,
      selector_pass (some s) (pre_device_is_id (some s)) d = true ↔
        d.id = decimal_value s) ∧
    (∀ (X : XServer) (verbose ld : Bool) (id : Nat) (nm : Option String) (ax : XYinfo),
      find_device X verbose (some s) ld id nm ax =
        find_device { X with devices := X.devices.filter (fun d => decide (d.id = decimal_value s)) }
          verbose none ld id nm ax) := by
  have hid : pre_device_is_id (some s) = true := digits_only_of_all s.data hs
  have hpass : ∀ d : XDeviceInfo,
      selector_pass (some s) (pre_device_is_id (some s)) d = decide (d.id = decimal_value s) := by
    intro d
    simp [selector_pass, hid, atoi_of_digits s hs hv]
  refine ⟨hid, ?_, ?_⟩
  · intro d
    rw [hpass d]
    simp
  · intro X verbose ld id nm ax
    exact find_device_filter s _ hpass X verbose ld id nm ax

/-- C5, as amended, at the selector 12: the touchscreen (identifier 12) passes,
the device named 12 with identifier 13 does not. -/
theorem digit_selector_matches_id_witness :
    (∀ c ∈ "12".data, isdigit c = true) ∧ decimal_value "12" < 2 ^ 31 ∧
    (selector_pass (some "12") (pre_device_is_id (some "12")) touchscreen = true ↔
      touchscreen.id = decimal_value "12") ∧
    (selector_pass (some "12") (pre_device_is_id (some "12")) named_twelve = true ↔
      named_twelve.id = decimal_value "12") ∧
    selector_pass (some "12") (pre_device_is_id (some "12")) named_twelve = false :=
  ⟨by decide, by decide,
   (digit_selector_matches_id "12" (by decide) (by decide)).2.1 touchscreen,
   (digit_selector_matches_id "12" (by decide) (by decide)).2.1 named_twelve,
   by decide⟩

/-- C6: for a selector with at least one character that is no digit, the
selector is taken as a name, a device passes the filter exactly when its name
equals the selector, and `find_device` with the selector is `find_device`
without selector on the devices of that name: the identifier of a device
plays no part. -/
theorem name_selector_matches_name (s : String) (hs : ∃ c ∈ s.data, isdigit c = false) :
    pre_device_is_id (some s) = false ∧
    (∀ d : XDeviceInfo,
      selector_pass (some s) (pre_device_is_id (some s)) d = true ↔ d.name = s) ∧
    (∀ (X : XServer) (verbose ld : Bool) (id : Nat) (nm : Option String) (ax : XYinfo),
      find_device X verbose (some s) ld id nm ax =
        find_device { X with devices := X.devices.filter (fun d => decide (d.name = s)) }
          verbose none ld id nm ax) := by
  have hid : pre_device_is_id (some s) = false := digits_only_of_exists s.data hs
  have hpass : ∀ d : XDeviceInfo,
      selector_pass (some s) (pre_device_is_id (some s)) d = decide (d.name = s) := by
    intro d
    simp [selector_pass, hid]
  refine ⟨hid, ?_, ?_⟩
  · intro d
    rw [hpass d]
    simp
  · intro X verbose ld id nm ax
    exact find_device_filter s _ hpass X verbose ld id nm ax

/-- C6 at the selector touchscreen: the device of that name passes, the mouse
does not. -/
theorem name_selector_matches_name_witness :
    (∃ c ∈ "touchscreen".data, isdigit c = false) ∧
    (selector_pass (some "touchscreen") (pre_device_is_id (some "touchscreen")) touchscreen
      = true ↔ touchscreen.name = "touchscreen") ∧
    (selector_pass (some "touchscreen") (pre_device_is_id (some "touchscreen")) mouse
      = true ↔ mouse.name = "touchscreen") :=
  ⟨by decide,
   (name_selector_matches_name "touchscreen" (by decide)).2.1 touchscreen,
   (name_selector_matches_name "touchscreen" (by decide)).2.1 mouse⟩

/-! ## Facts about the logs of `make_calibrator` -/

theorem constructions_append (l1 l2 : List Event) :
    constructions (l1 ++ l2) = constructions l1 ++ constructions l2 := by
  induction l1 with
  | nil => rfl
  | cons e rest ih => cases e <;> simp [constructions, ih]

theorem xlib_calls_append (l1 l2 : List Event) :
    xlib_calls (l1 ++ l2) = xlib_calls l1 ++ xlib_calls l2 := by
  induction l1 with
  | nil => rfl
  | cons e rest ih => cases e <;> simp [xlib_calls, ih]

theorem constructions_of_none (l : List Event) (h : ∀ e ∈ l, e.is_construct = false) :
    constructions l = [] := by
  induction l with
  | nil => rfl
  | cons e rest ih =>
    have he := h e (List.mem_cons_self e rest)
    have hr := ih (fun x hx => h x (List.mem_cons_of_mem e hx))
    cases e <;> simp_all [constructions, Event.is_construct]

theorem constructions_of_diagnostic (l : List Event) (h : ∀ e ∈ l, e.is_diagnostic = true) :
    constructions l = [] := by
  apply constructions_of_none
  intro e he
  have := h e he
  cases e <;> simp_all [Event.is_diagnostic, Event.is_construct]

theorem xlib_calls_of_diagnostic (l : List Event) (h : ∀ e ∈ l, e.is_diagnostic = true) :
    xlib_calls l = [] := by
  induction l with
  | nil => rfl
  | cons e rest ih =>
    have he := h e (List.mem_cons_self e rest)
    have hr := ih (fun x hx => h x (List.mem_cons_of_mem e hx))
    cases e <;> simp_all [xlib_calls, Event.is_diagnostic]

theorem all_diagnostic_ite {α : Type} (c : Prop) [Decidable c] (a b : Run α)
    (ha : a.log.all Event.is_diagnostic = true) (hb : b.log.all Event.is_diagnostic = true) :
    (if c then a else b).log.all Event.is_diagnostic = true := by
  split <;> assumption

theorem all_diagnostic_dite {α : Type} (c : Prop) [Decidable c] (a : c → Run α)
    (b : ¬ c → Run α) (ha : ∀ h, (a h).log.all Event.is_diagnostic = true)
    (hb : ∀ h, (b h).log.all Event.is_diagnostic = true) :
    (dite c a b).log.all Event.is_diagnostic = true := by
  split
  · exact ha _
  · exact hb _

theorem parse_step_log (E : Env) (argv : List String) (i : Nat) (a : String) (o : Opts) :
    ∀ e ∈ (parse_step E argv i a o).log, e.is_diagnostic = true := by
  have h : (parse_step E argv i a o).log.all Event.is_diagnostic = true := by
    unfold parse_step
    repeat' first
      | exact rfl
      | apply all_diagnostic_ite
      | apply all_diagnostic_dite
      | intro _
  exact List.all_eq_true.mp h

theorem parse_loop_log (E : Env) (argv : List String) :
    ∀ (fuel i : Nat) (o : Opts) (log : List Event),
      (∀ e ∈ log, e.is_diagnostic = true) →
      ∀ e ∈ (parse_loop E argv fuel i o log).log, e.is_diagnostic = true := by
  intro fuel
  induction fuel with
  | zero => intro i o log hlog; simpa [parse_loop] using hlog
  | succ n ih =>
    intro i o log hlog
    unfold parse_loop
    by_cases hi : i = argv.length
    · simpa [hi] using hlog
    · simp only [hi, if_false]
      cases ha : argv[i]? with
      | none => simpa using hlog
      | some a =>
        have hst := parse_step_log E argv i a o
        have hboth : ∀ e ∈ log ++ (parse_step E argv i a o).log, e.is_diagnostic = true := by
          intro e he
          rcases List.mem_append.mp he with h | h
          · exact hlog e h
          · exact hst e h
        simp only
        cases hout : (parse_step E argv i a o).out with
        | ret r =>
          obtain ⟨i1, o1⟩ := r
          simp only
          exact ih (i1 + 1) o1 _ hboth
        | exit status => simpa using hboth
        | fault => simpa using hboth
        | raised what => simpa using hboth
        | out_of_fuel => simpa using hboth

theorem parse_args_log (E : Env) (argv : List String) :
    ∀ e ∈ (parse_args E argv).log, e.is_diagnostic = true :=
  parse_loop_log E argv _ _ _ [] (by simp)

theorem visit_class_constructions (ld : Bool) (d : XDeviceInfo) (s s1 : Scan)
    (any : XAnyClass) (h : visit_class ld d s any = some s1) :
    constructions s1.log = constructions s.log := by
  cases any with
  | other =>
    simp only [visit_class, Option.some.injEq] at h
    rw [← h]
  | valuator V =>
    rcases V with ⟨mode, axes⟩
    rcases axes with _ | ⟨a0, _ | ⟨a1, rest⟩⟩
    · by_cases hm : mode = Absolute <;>
        simp [visit_class, XValuatorInfo.num_axes, hm] at h <;>
        simp [← h, constructions_append, constructions, skip_not_absolute, skip_no_axes]
    · by_cases hm : mode = Absolute <;>
        simp [visit_class, XValuatorInfo.num_axes, hm] at h <;>
        simp [← h, constructions_append, constructions, skip_not_absolute, skip_no_axes]
    · have hlen : ¬ (rest.length + 1 + 1 < 2) := by omega
      by_cases hm : mode = Absolute
      · by_cases h0 : a0.min_value = -1 ∧ a0.max_value = -1
        · simp [visit_class, XValuatorInfo.num_axes, hm, h0, hlen] at h
          simp [← h, constructions_append, constructions, skip_no_axes]
        · by_cases h1 : a1.min_value = -1 ∧ a1.max_value = -1
          · simp [visit_class, XValuatorInfo.num_axes, hm, h0, h1, hlen] at h
            simp [← h, constructions_append, constructions, skip_no_axes]
          · simp [visit_class, XValuatorInfo.num_axes, hm, h0, h1, hlen] at h
            cases ld <;>
              simp [← h, record_found, constructions_append, constructions]
      · simp [visit_class, XValuatorInfo.num_axes, hm] at h
        simp [← h, constructions_append, constructions, skip_not_absolute]

theorem scan_classes_constructions (ld : Bool) (d : XDeviceInfo) (cls : List XAnyClass) :
    ∀ s s1 : Scan, scan_classes ld d cls s = some s1 →
      constructions s1.log = constructions s.log := by
  induction cls with
  | nil =>
    intro s s1 h
    simp only [scan_classes, Option.some.injEq] at h
    rw [← h]
  | cons any rest ih =>
    intro s s1 h
    cases hv : visit_class ld d s any with
    | none => simp [scan_classes, hv] at h
    | some s2 =>
      simp only [scan_classes, hv] at h
      rw [ih s2 s1 h, visit_class_constructions ld d s s2 any hv]

theorem scan_devices_constructions (pd : Option String) (isid ld : Bool)
    (devs : List XDeviceInfo) :
    ∀ s s1 : Scan, scan_devices pd isid ld devs s = some s1 →
      constructions s1.log = constructions s.log := by
  induction devs with
  | nil =>
    intro s s1 h
    simp only [scan_devices, Option.some.injEq] at h
    rw [← h]
  | cons d rest ih =>
    intro s s1 h
    by_cases hv : d.use = IsXKeyboard ∨ d.use = IsXPointer
    · simp only [scan_devices, hv, if_true] at h
      exact ih s s1 h
    · by_cases hp : selector_pass pd isid d = false
      · simp only [scan_devices, hv, hp, if_true, if_false] at h
        exact ih s s1 h
      · cases hc : scan_classes ld d d.inputclassinfo s with
        | none => simp [scan_devices, hv, hp, hc] at h
        | some s2 =>
          simp only [scan_devices, hv, hp, hc, if_false] at h
          rw [ih s2 s1 h, scan_classes_constructions ld d _ s s2 hc]

theorem find_device_constructions (X : XServer) (verbose : Bool) (pd : Option String)
    (ld : Bool) (id : Nat) (nm : Option String) (ax : XYinfo) :
    constructions (find_device X verbose pd ld id nm ax).log = [] := by
  unfold find_device
  by_cases hd : X.display = false
  · simp [hd, constructions]
  · by_cases hx : X.xinput = false
    · simp [hd, hx, constructions]
    · simp only [hd, hx, if_false]
      have hv : constructions (version_log verbose X.version) = [] := by
        unfold version_log
        cases verbose
        · rfl
        · cases X.version with
          | none => rfl
          | some v => rfl
      cases hs : scan_devices pd (pre_device_is_id pd) ld X.devices
        { found := 0, device_id := id, device_name := nm, device_axys := ax,
          log := [.xlib .XOpenDisplay, .xlib .XQueryExtension] ++
            version_log verbose X.version ++
            [.trace "Skipping virtual master devices and devices without axis valuators.\n" [],
             .xlib .XListInputDevices] } with
      | none => simp [constructions_append, constructions, hv]
      | some s =>
        have := scan_devices_constructions _ _ _ _ _ s hs
        simp [constructions_append, constructions, hv] at this
        simp [constructions_append, constructions, this]

theorem chain_constructions (E : Env) (o : Opts) (d : Device) (ax : XYinfo) :
    constructions (strategy_chain E o d ax).log ≠ [] ∧
    ∀ k a, (k, a) ∈ constructions (strategy_chain E o d ax).log →
      a.device_name = d.device_name ∧ a.device_axys = ax := by
  unfold strategy_chain
  cases h1 : E.CalibratorUsbtouchscreen
    ⟨d.device_name, ax, none, o.thr_misclick, o.thr_doubleclick, o.output_type, o.geometry⟩ with
  | ok => simp [h1, constructions]
  | wrong w1 =>
    cases h2 : E.CalibratorEvdev
      ⟨d.device_name, ax, some d.device_id, o.thr_misclick, o.thr_doubleclick, o.output_type,
        o.geometry⟩ with
    | ok =>
      simp only [h1, h2, constructions]
      refine ⟨by simp, ?_⟩
      intro k a h
      simp at h
      rcases h with ⟨_, rfl⟩ | ⟨_, rfl⟩ <;> exact ⟨rfl, rfl⟩
    | wrong w2 =>
      cases h3 : E.CalibratorXorgPrint
        ⟨d.device_name, ax, none, o.thr_misclick, o.thr_doubleclick, o.output_type,
          o.geometry⟩ with
      | ok =>
        simp only [h1, h2, h3, constructions]
        refine ⟨by simp, ?_⟩
        intro k a h
        simp at h
        rcases h with ⟨_, rfl⟩ | ⟨_, rfl⟩ | ⟨_, rfl⟩ <;> exact ⟨rfl, rfl⟩
      | wrong w3 =>
        simp only [h1, h2, h3, constructions]
        refine ⟨by simp, ?_⟩
        intro k a h
        simp at h
        rcases h with ⟨_, rfl⟩ | ⟨_, rfl⟩ | ⟨_, rfl⟩ <;> exact ⟨rfl, rfl⟩

theorem chain_returns_args (E : Env) (o : Opts) (d : Device) (ax : XYinfo) (c : Calibrator)
    (h : (strategy_chain E o d ax).out = .ret c) :
    c.args.device_name = d.device_name ∧ c.args.device_axys = ax := by
  unfold strategy_chain at h
  cases h1 : E.CalibratorUsbtouchscreen
    ⟨d.device_name, ax, none, o.thr_misclick, o.thr_doubleclick, o.output_type, o.geometry⟩ with
  | ok =>
    simp only [h1, Outcome.ret.injEq] at h
    rw [← h]; exact ⟨rfl, rfl⟩
  | wrong w1 =>
    cases h2 : E.CalibratorEvdev
      ⟨d.device_name, ax, some d.device_id, o.thr_misclick, o.thr_doubleclick, o.output_type,
        o.geometry⟩ with
    | ok =>
      simp only [h1, h2, Outcome.ret.injEq] at h
      rw [← h]; exact ⟨rfl, rfl⟩
    | wrong w2 =>
      cases h3 : E.CalibratorXorgPrint
        ⟨d.device_name, ax, none, o.thr_misclick, o.thr_doubleclick, o.output_type,
          o.geometry⟩ with
      | ok =>
        simp only [h1, h2, h3, Outcome.ret.injEq] at h
        rw [← h]; exact ⟨rfl, rfl⟩
      | wrong w3 =>
        simp only [h1, h2, h3] at h
        exact Outcome.noConfusion h

theorem override_axys_eq_merge (pre dev : XYinfo) :
    override_axys pre dev = merge_spec pre dev := by
  unfold override_axys merge_spec pick_bound
  by_cases h1 : pre.x.min = -1 <;> by_cases h2 : pre.x.max = -1 <;>
    by_cases h3 : pre.y.min = -1 <;> by_cases h4 : pre.y.max = -1 <;>
    simp [h1, h2, h3, h4]

theorem make_calibrator_eq (E : Env) (argv : List String) (o : Opts) (plog : List Event)
    (d : Device) (dlog : List Event)
    (hp : parse_args E argv = ⟨plog, .ret o⟩) (hd : choose_device E o = ⟨dlog, .ret d⟩) :
    make_calibrator E argv =
      ⟨plog ++ (dlog ++ (apply_precalib o d.device_axys).2 ++
          (strategy_chain E o d (apply_precalib o d.device_axys).1).log),
        (strategy_chain E o d (apply_precalib o d.device_axys).1).out⟩ := by
  simp [make_calibrator, hp, after_parse, hd]

theorem chain_xlib_calls (E : Env) (o : Opts) (d : Device) (ax : XYinfo) :
    xlib_calls (strategy_chain E o d ax).log = [] := by
  unfold strategy_chain
  cases h1 : E.CalibratorUsbtouchscreen
    ⟨d.device_name, ax, none, o.thr_misclick, o.thr_doubleclick, o.output_type, o.geometry⟩ with
  | ok => simp [h1, xlib_calls]
  | wrong w1 =>
    cases h2 : E.CalibratorEvdev
      ⟨d.device_name, ax, some d.device_id, o.thr_misclick, o.thr_doubleclick, o.output_type,
        o.geometry⟩ with
    | ok => simp [h1, h2, xlib_calls]
    | wrong w2 =>
      cases h3 : E.CalibratorXorgPrint
        ⟨d.device_name, ax, none, o.thr_misclick, o.thr_doubleclick, o.output_type,
          o.geometry⟩ with
      | ok => simp [h1, h2, h3, xlib_calls]
      | wrong w3 => simp [h1, h2, h3, xlib_calls]

theorem apply_precalib_log (o : Opts) (ax : XYinfo) :
    constructions (apply_precalib o ax).2 = [] ∧ xlib_calls (apply_precalib o ax).2 = [] := by
  unfold apply_precalib
  cases o.precalib <;> exact ⟨rfl, rfl⟩

theorem choose_device_constructions (E : Env) (o : Opts) :
    constructions (choose_device E o).log = [] := by
  unfold choose_device
  cases o.fake with
  | true => rfl
  | false =>
    have hf := find_device_constructions E.X o.verbose o.pre_device o.list_devices
      (to_XID (-1)) none E.XYinfo_default
    simp only [Bool.false_eq_true, if_false]
    cases hout : (find_device E.X o.verbose o.pre_device o.list_devices
        (to_XID (-1)) none E.XYinfo_default).out with
    | ret f =>
      simp only
      split_ifs
      · simp [constructions_append, hf, constructions]
      · simp [constructions_append, hf, constructions]
      · simp only [constructions_append, hf, List.nil_append]
        cases o.pre_device <;> rfl
      · simp [constructions_append, hf, constructions, multiple_devices_warning]
      · simp [constructions_append, hf, constructions]
    | exit status => simpa using hf
    | fault => simpa using hf
    | raised what => simpa using hf
    | out_of_fuel => simpa using hf

theorem parse_args_constructions (E : Env) (argv : List String) :
    constructions (parse_args E argv).log = [] :=
  constructions_of_diagnostic _ (parse_args_log E argv)

theorem parse_args_xlib_calls (E : Env) (argv : List String) :
    xlib_calls (parse_args E argv).log = [] :=
  xlib_calls_of_diagnostic _ (parse_args_log E argv)

/-! ## Selection: claims C7 to C10 -/

/-- C7: with precalibration supplied, every calibrator constructor that
`make_calibrator` calls, and the calibrator it returns, gets the discovered
axes merged field by field with the overrides: each of x.min, x.max, y.min,
y.max is the override when the override is not -1 and the discovered value
otherwise. The overrides 5, -1, -1, 200 on the axes 0..100 by 0..100 give
5..100 by 0..200. -/
theorem precalib_merge (E : Env) (argv : List String) (o : Opts) (plog : List Event)
    (d : Device) (dlog : List Event)
    (hp : parse_args E argv = ⟨plog, .ret o⟩) (hd : choose_device E o = ⟨dlog, .ret d⟩)
    (hpre : o.precalib = true) :
    constructions (make_calibrator E argv).log ≠ [] ∧
    (∀ k a, (k, a) ∈ constructions (make_calibrator E argv).log →
      a.device_axys = merge_spec o.pre_axys d.device_axys) ∧
    (∀ c, (make_calibrator E argv).out = .ret c →
      c.args.device_axys = merge_spec o.pre_axys d.device_axys) ∧
    override_axys (XYinfo.mk4 5 (-1) (-1) 200) (XYinfo.mk4 0 100 0 100) =
      XYinfo.mk4 5 100 0 200 := by
  have hpl : constructions plog = [] := by
    have := parse_args_constructions E argv
    rwa [hp] at this
  have hdl : constructions dlog = [] := by
    have := choose_device_constructions E o
    rwa [hd] at this
  have hax : (apply_precalib o d.device_axys).1 = merge_spec o.pre_axys d.device_axys := by
    simp [apply_precalib, hpre, override_axys_eq_merge]
  have hch := chain_constructions E o d (apply_precalib o d.device_axys).1
  rw [make_calibrator_eq E argv o plog d dlog hp hd]
  simp only [constructions_append, hpl, hdl, (apply_precalib_log o d.device_axys).1,
    List.nil_append]
  refine ⟨hch.1, ?_, ?_, by decide⟩
  · intro k a h
    rw [← hax]
    exact (hch.2 k a h).2
  · intro c h
    rw [← hax]
    exact (chain_returns_args E o d _ c h).2

/-- C7 at the overrides 5, -1, -1, 200 and a panel with axes 0..100 by
0..100: the calibrator gets 5..100 by 0..200. -/
theorem precalib_merge_witness :
    parse_args (env_fallback (server [panel])) [prog, "--precalib", "5", "-1", "-1", "200"] =
      ⟨[], .ret ⟨false, false, false, true, XYinfo.mk4 5 (-1) (-1) 200, none, none, 15, 7,
        .OUTYPE_AUTO⟩⟩ ∧
    merge_spec (XYinfo.mk4 5 (-1) (-1) 200) (XYinfo.mk4 0 100 0 100) = XYinfo.mk4 5 100 0 200 ∧
    (∀ c, (make_calibrator (env_fallback (server [panel]))
        [prog, "--precalib", "5", "-1", "-1", "200"]).out = .ret c →
      c.args.device_axys = merge_spec (XYinfo.mk4 5 (-1) (-1) 200) (XYinfo.mk4 0 100 0 100)) ∧
    (make_calibrator (env_fallback (server [panel]))
        [prog, "--precalib", "5", "-1", "-1", "200"]).out =
      .ret ⟨.XorgPrint, ⟨some "panel", XYinfo.mk4 5 100 0 200, none, 15, 7, .OUTYPE_AUTO, none⟩⟩ :=
  ⟨by decide, by decide,
   (precalib_merge (env_fallback (server [panel])) [prog, "--precalib", "5", "-1", "-1", "200"]
      ⟨false, false, false, true, XYinfo.mk4 5 (-1) (-1) 200, none, none, 15, 7, .OUTYPE_AUTO⟩
      [] ⟨10, some "panel", XYinfo.mk4 0 100 0 100⟩
      (choose_device (env_fallback (server [panel]))
        ⟨false, false, false, true, XYinfo.mk4 5 (-1) (-1) 200, none, none, 15, 7,
          .OUTYPE_AUTO⟩).log
      (by decide) (by decide) rfl).2.2.1,
   by decide⟩

/-- C8: when the first two constructors raise the not-applicable signal and
the third never does, `make_calibrator`, once the arguments are read and the
device is chosen, returns an instance of the third calibrator, and its log
ends with the three constructor calls in order with exactly two rejection
traces, one after each of the first two calls. -/
theorem fallback_chain (E : Env) (argv : List String) (o : Opts) (plog : List Event)
    (d : Device) (dlog : List Event)
    (hp : parse_args E argv = ⟨plog, .ret o⟩) (hd : choose_device E o = ⟨dlog, .ret d⟩)
    (h1 : ∀ a, ∃ w, E.CalibratorUsbtouchscreen a = .wrong w)
    (h2 : ∀ a, ∃ w, E.CalibratorEvdev a = .wrong w)
    (h3 : ∀ a, E.CalibratorXorgPrint a = .ok) :
    ∃ (w1 w2 : String) (a1 a2 : CalibArgs),
      E.CalibratorUsbtouchscreen a1 = .wrong w1 ∧ E.CalibratorEvdev a2 = .wrong w2 ∧
      make_calibrator E argv =
        ⟨plog ++ (dlog ++ (apply_precalib o d.device_axys).2 ++
          [.construct .Usbtouchscreen a1,
           .trace "Not usbtouchscreen calibrator: %s\n" [.str (some w1)],
           .construct .Evdev a2,
           .trace "Not evdev calibrator: %s\n" [.str (some w2)],
           .construct .XorgPrint a1]),
         .ret ⟨.XorgPrint, a1⟩⟩ := by
  obtain ⟨w1, hw1⟩ := h1 ⟨d.device_name, (apply_precalib o d.device_axys).1, none,
    o.thr_misclick, o.thr_doubleclick, o.output_type, o.geometry⟩
  obtain ⟨w2, hw2⟩ := h2 ⟨d.device_name, (apply_precalib o d.device_axys).1,
    some d.device_id, o.thr_misclick, o.thr_doubleclick, o.output_type, o.geometry⟩
  refine ⟨w1, w2, _, _, hw1, hw2, ?_⟩
  rw [make_calibrator_eq E argv o plog d dlog hp hd]
  simp only [strategy_chain, hw1, hw2, h3]

/-- C8 at a touchscreen and no options. -/
theorem fallback_chain_witness :
    ∃ (w1 w2 : String) (a1 a2 : CalibArgs),
      (env_fallback (server [touchscreen])).CalibratorUsbtouchscreen a1 = .wrong w1 ∧
      (env_fallback (server [touchscreen])).CalibratorEvdev a2 = .wrong w2 ∧
      make_calibrator (env_fallback (server [touchscreen])) [prog] =
        ⟨[] ++ ((choose_device (env_fallback (server [touchscreen]))
              (Opts.init (env_fallback (server [touchscreen])))).log ++
            (apply_precalib (Opts.init (env_fallback (server [touchscreen])))
              (XYinfo.mk4 0 100 0 200)).2 ++
          [.construct .Usbtouchscreen a1,
           .trace "Not usbtouchscreen calibrator: %s\n" [.str (some w1)],
           .construct .Evdev a2,
           .trace "Not evdev calibrator: %s\n" [.str (some w2)],
           .construct .XorgPrint a1]),
         .ret ⟨.XorgPrint, a1⟩⟩ :=
  fallback_chain (env_fallback (server [touchscreen])) [prog]
    (Opts.init (env_fallback (server [touchscreen]))) []
    ⟨12, some "touchscreen", XYinfo.mk4 0 100 0 200⟩
    (choose_device (env_fallback (server [touchscreen]))
      (Opts.init (env_fallback (server [touchscreen])))).log
    (by decide) (by decide)
    (fun _ => ⟨_, rfl⟩) (fun _ => ⟨_, rfl⟩) (fun _ => rfl)

/-- C9, refuted as stated. First, with `--fake --precalib 5 10 20 30` the
arguments are read without error and the constructor is called with the name
Fake_device and the axes 5..10 by 20..30, not 0..1000 by 0..1000. Second,
the argument list `--device --fake` contains `--fake` and is read without
error, but there `--fake` is the value of `--device`: the fake flag stays
clear and `find_device` is invoked. -/
theorem fake_device_counterexample :
    ("--fake" ∈ [prog, "--fake", "--precalib", "5", "10", "20", "30"] ∧
     (parse_args (env_usb (server [])) [prog, "--fake", "--precalib", "5", "10", "20", "30"]).out =
       .ret ⟨false, false, true, true, XYinfo.mk4 5 10 20 30, none, none, 15, 7, .OUTYPE_AUTO⟩ ∧
     constructions (make_calibrator (env_usb (server []))
         [prog, "--fake", "--precalib", "5", "10", "20", "30"]).log =
       [(.Usbtouchscreen,
         ⟨some "Fake_device", XYinfo.mk4 5 10 20 30, none, 15, 7, .OUTYPE_AUTO, none⟩)]) ∧
    ("--fake" ∈ [prog, "--device", "--fake"] ∧
     (parse_args (env_usb (server [touchscreen])) [prog, "--device", "--fake"]).out =
       .ret ⟨false, false, false, false, unset_axys, some "--fake", none, 15, 7, .OUTYPE_AUTO⟩ ∧
     xlib_calls (make_calibrator (env_usb (server [touchscreen]))
         [prog, "--device", "--fake"]).log =
       [.XOpenDisplay, .XQueryExtension, .XListInputDevices, .XFreeDeviceList,
        .XCloseDisplay]) := by
  decide

/-- C9, as amended: whenever the arguments are read without error and leave
the fake flag set, `make_calibrator` makes no Xlib call (so `find_device` is
not invoked), calls at least one calibrator constructor, and every constructor
call gets the name Fake_device and the axes 0..1000 by 0..1000, merged with the
precalibration overrides when `--precalib` was given. -/
theorem fake_device (E : Env) (argv : List String) (o : Opts) (plog : List Event)
    (hp : parse_args E argv = ⟨plog, .ret o⟩) (hf : o.fake = true) :
    xlib_calls (make_calibrator E argv).log = [] ∧
    constructions (make_calibrator E argv).log ≠ [] ∧
    (∀ k a, (k, a) ∈ constructions (make_calibrator E argv).log →
      a.device_name = some "Fake_device" ∧
      a.device_axys =
        (if o.precalib then merge_spec o.pre_axys (XYinfo.mk4 0 1000 0 1000)
         else XYinfo.mk4 0 1000 0 1000)) := by
  have hd : choose_device E o =
      ⟨[.trace "Faking device: %s\n" [.str (some "Fake_device")]],
       .ret ⟨to_XID (-1), some "Fake_device", XYinfo.mk4 0 1000 0 1000⟩⟩ := by
    simp [choose_device, hf]
  have hpl : constructions plog = [] := by
    have := parse_args_constructions E argv
    rwa [hp] at this
  have hpx : xlib_calls plog = [] := by
    have := parse_args_xlib_calls E argv
    rwa [hp] at this
  have hax : (apply_precalib o (XYinfo.mk4 0 1000 0 1000)).1 =
      (if o.precalib then merge_spec o.pre_axys (XYinfo.mk4 0 1000 0 1000)
       else XYinfo.mk4 0 1000 0 1000) := by
    unfold apply_precalib
    cases o.precalib <;> simp [override_axys_eq_merge]
  have hch := chain_constructions E o
    ⟨to_XID (-1), some "Fake_device", XYinfo.mk4 0 1000 0 1000⟩
    (apply_precalib o (XYinfo.mk4 0 1000 0 1000)).1
  have hdc : constructions [Event.trace "Faking device: %s\n" [.str (some "Fake_device")]] = [] :=
    rfl
  have hdx : xlib_calls [Event.trace "Faking device: %s\n" [.str (some "Fake_device")]] = [] :=
    rfl
  rw [make_calibrator_eq E argv o plog _ _ hp hd]
  simp only [constructions_append, xlib_calls_append, hpl, hpx, hdc, hdx,
    (apply_precalib_log o (XYinfo.mk4 0 1000 0 1000)).1,
    (apply_precalib_log o (XYinfo.mk4 0 1000 0 1000)).2, chain_xlib_calls,
    List.nil_append, List.append_nil]
  refine ⟨trivial, hch.1, ?_⟩
  intro k a h
  have := hch.2 k a h
  rw [hax] at this
  exact this

/-- C9, as amended, at `--fake` alone. -/
theorem fake_device_witness :
    parse_args (env_usb (server [touchscreen])) [prog, "--fake"] =
      ⟨[], .ret ⟨false, false, true, false, unset_axys, none, none, 15, 7, .OUTYPE_AUTO⟩⟩ ∧
    xlib_calls (make_calibrator (env_usb (server [touchscreen])) [prog, "--fake"]).log = [] ∧
    constructions (make_calibrator (env_usb (server [touchscreen])) [prog, "--fake"]).log =
      [(.Usbtouchscreen,
        ⟨some "Fake_device", XYinfo.mk4 0 1000 0 1000, none, 15, 7, .OUTYPE_AUTO, none⟩)] :=
  ⟨by decide,
   (fake_device (env_usb (server [touchscreen])) [prog, "--fake"]
      ⟨false, false, true, false, unset_axys, none, none, 15, 7, .OUTYPE_AUTO⟩ []
      (by decide) rfl).1,
   by decide⟩

/-- C10: when the arguments leave the fake and list flags clear and the scan
returns count 0, `make_calibrator` ends with `exit(1)` after one last error
message and calls no calibrator constructor; the message is the one that names
the selector and carries the `--list` hint exactly when a selector was given,
and the other one, that no calibratable device was found, exactly when none
was given. -/
theorem zero_matches_exit (E : Env) (argv : List String) (o : Opts) (plog flog : List Event)
    (f : Found)
    (hp : parse_args E argv = ⟨plog, .ret o⟩)
    (hfake : o.fake = false) (hlist : o.list_devices = false)
    (hf : find_device E.X o.verbose o.pre_device o.list_devices (to_XID (-1)) none
      E.XYinfo_default = ⟨flog, .ret f⟩)
    (h0 : f.found = 0) :
    ∃ e : Event,
      make_calibrator E argv = ⟨plog ++ (flog ++ [e]), .exit 1⟩ ∧
      constructions (make_calibrator E argv).log = [] ∧
      (∀ p, o.pre_device = some p ↔
        e = .error "Error: Device \x22%s\x22 not found; use --list to list the calibratable input devices.\n"
          [.str (some p)]) ∧
      (o.pre_device = none ↔ e = .error "Error: No calibratable devices found.\n" []) := by
  have hd : choose_device E o =
      ⟨flog ++ [match o.pre_device with
         | none => no_device_error
         | some p => device_not_found_error p], .exit 1⟩ := by
    have hf1 := hf
    rw [hlist] at hf1
    simp [choose_device, hfake, hf1, hlist, h0]
  have hm : make_calibrator E argv =
      ⟨plog ++ (flog ++ [match o.pre_device with
         | none => no_device_error
         | some p => device_not_found_error p]), .exit 1⟩ := by
    simp [make_calibrator, hp, after_parse, hd]
  have hpl : constructions plog = [] := by
    have := parse_args_constructions E argv
    rwa [hp] at this
  have hfl : constructions flog = [] := by
    have := find_device_constructions E.X o.verbose o.pre_device o.list_devices
      (to_XID (-1)) none E.XYinfo_default
    rwa [hf] at this
  refine ⟨_, hm, ?_, ?_, ?_⟩
  · rw [hm]
    simp only [constructions_append, hpl, hfl, List.nil_append]
    cases o.pre_device <;> rfl
  · intro p
    cases hpd : o.pre_device with
    | none => simp [no_device_error]
    | some q => simp [device_not_found_error]
  · cases hpd : o.pre_device with
    | none => simp [no_device_error]
    | some q => simp [device_not_found_error]

/-- C10 at a selector that names no device, and at no selector with only a
mouse attached. -/
theorem zero_matches_exit_witness :
    (∃ e : Event,
      make_calibrator (env_fallback (server [mouse, touchscreen])) [prog, "--device", "pen"] =
        ⟨[] ++ ((find_device (server [mouse, touchscreen]) false (some "pen") false
          (to_XID (-1)) none unset_axys).log ++ [e]), .exit 1⟩ ∧
      constructions (make_calibrator (env_fallback (server [mouse, touchscreen]))
        [prog, "--device", "pen"]).log = [] ∧
      (∀ p, some "pen" = some p ↔
        e = .error "Error: Device \x22%s\x22 not found; use --list to list the calibratable input devices.\n"
          [.str (some p)]) ∧
      ((some "pen" : Option String) = none ↔
        e = .error "Error: No calibratable devices found.\n" [])) ∧
    (make_calibrator (env_fallback (server [mouse])) [prog]).out = .exit 1 :=
  ⟨zero_matches_exit (env_fallback (server [mouse, touchscreen])) [prog, "--device", "pen"]
     ⟨false, false, false, false, unset_axys, some "pen", none, 15, 7, .OUTYPE_AUTO⟩ []
     (find_device (server [mouse, touchscreen]) false (some "pen") false
       (to_XID (-1)) none unset_axys).log
     ⟨0, to_XID (-1), none, unset_axys⟩ (by decide) rfl rfl (by decide) rfl,
   by decide⟩

/-! ## The device scan: claims C17 to C19 -/

theorem all_hits_nil (pd : Option String) (isid : Bool) (devs : List XDeviceInfo)
    (h : ∀ d ∈ devs, is_virtual d = true ∨ selector_pass pd isid d = false ∨
      device_calibratable d = false) :
    all_hits pd isid devs = [] := by
  induction devs with
  | nil => rfl
  | cons d rest ih =>
    have hr := ih (fun x hx => h x (List.mem_cons_of_mem d hx))
    rcases h d (List.mem_cons_self d rest) with hv | hp | hc
    · simp [all_hits, hv, hr]
    · simp [all_hits, hp, hr]
    · simp [all_hits, hits_of_not_calibratable d hc, hr]

/-- C17: when no device of the list qualifies for the selector (each device
is virtual, or fails the selector filter, or has no calibratable valuator),
`find_device` returns 0 and hands back the three output parameters exactly as
the caller passed them. -/
theorem no_match_keeps_outputs (X : XServer) (hd : X.display = true) (hx : X.xinput = true)
    (pd : Option String)
    (hnone : ∀ d ∈ X.devices, is_virtual d = true ∨
      selector_pass pd (pre_device_is_id pd) d = false ∨ device_calibratable d = false)
    (verbose ld : Bool) (id : Nat) (nm : Option String) (ax : XYinfo) :
    (find_device X verbose pd ld id nm ax).out = .ret ⟨0, id, nm, ax⟩ := by
  rw [find_device_out X hd hx, all_hits_nil pd _ X.devices hnone]
  rfl

/-- C17 at a mouse and the virtual core pointer, with outputs 7, a name and
axes 1..2 by 3..4 passed in. -/
theorem no_match_keeps_outputs_witness :
    (∀ d ∈ (server [mouse, core_pointer]).devices, is_virtual d = true ∨
      selector_pass none (pre_device_is_id none) d = false ∨ device_calibratable d = false) ∧
    (find_device (server [mouse, core_pointer]) false none false 7 (some "before")
      (XYinfo.mk4 1 2 3 4)).out = .ret ⟨0, 7, some "before", XYinfo.mk4 1 2 3 4⟩ :=
  ⟨by decide,
   no_match_keeps_outputs (server [mouse, core_pointer]) rfl rfl none (by decide)
     false false 7 (some "before") (XYinfo.mk4 1 2 3 4)⟩

/-- C18: the reads of `ax[0]` and `ax[1]` never leave the `axes` array: the
body of the class loop never makes an out-of-range read, a valuator with fewer
than two axes is skipped by a step that depends on its mode alone, and
`find_device` never ends in a fault, for every server, device list, selector
and initial output. -/
theorem axis_lookup_in_range :
    (∀ (ld : Bool) (d : XDeviceInfo) (s : Scan) (any : XAnyClass),
      visit_class ld d s any ≠ none) ∧
    (∀ (ld : Bool) (d : XDeviceInfo) (s : Scan) (V : XValuatorInfo), V.num_axes < 2 →
      visit_class ld d s (.valuator V) =
        some { s with log := s.log ++
          [if V.mode ≠ Absolute then skip_not_absolute d else skip_no_axes d] }) ∧
    (∀ (X : XServer) (verbose : Bool) (pd : Option String) (ld : Bool) (id : Nat)
        (nm : Option String) (ax : XYinfo),
      (find_device X verbose pd ld id nm ax).out ≠ .fault) := by
  refine ⟨?_, ?_, ?_⟩
  · intro ld d s any h
    obtain ⟨s1, h1, _⟩ := visit_class_core ld d s any
    rw [h] at h1
    exact Option.noConfusion h1
  · intro ld d s V hV
    by_cases hm : V.mode = Absolute
    · simp [visit_class, hm, hV]
    · simp [visit_class, hm]
  · intro X verbose pd ld id nm ax h
    rw [find_device_out_cases] at h
    split_ifs at h

/-- C18 at a dial with a single axis: the valuator is skipped without a look
at an axis, and the scan of the dial does not end in a fault. -/
theorem axis_lookup_in_range_witness :
    (⟨Absolute, [⟨0, 255⟩]⟩ : XValuatorInfo).num_axes < 2 ∧
    visit_class false dial ⟨0, 0, none, unset_axys, []⟩ (.valuator ⟨Absolute, [⟨0, 255⟩]⟩) =
      some ⟨0, 0, none, unset_axys, [skip_no_axes dial]⟩ ∧
    (find_device (server [dial]) false none false 0 none unset_axys).out ≠ .fault :=
  ⟨by decide,
   axis_lookup_in_range.2.1 false dial ⟨0, 0, none, unset_axys, []⟩ ⟨Absolute, [⟨0, 255⟩]⟩
     (by decide),
   axis_lookup_in_range.2.2 (server [dial]) false none false 0 none unset_axys⟩

/-- C19: the empty selector is taken as an identifier (no character clears
`pre_device_is_id`) of value 0: a device passes the filter exactly when its
identifier is 0, whatever its name, and `find_device` with the empty selector
is `find_device` without selector on the devices with identifier 0. -/
theorem empty_selector :
    pre_device_is_id (some "") = true ∧ atoi "" = 0 ∧
    (∀ d : XDeviceInfo,
      selector_pass (some "") (pre_device_is_id (some "")) d = true ↔ d.id = 0) ∧
    (∀ (X : XServer) (verbose ld : Bool) (id : Nat) (nm : Option String) (ax : XYinfo),
      find_device X verbose (some "") ld id nm ax =
        find_device { X with devices := X.devices.filter (fun d => decide (d.id = 0)) }
          verbose none ld id nm ax) := by
  have hid : pre_device_is_id (some "") = true := rfl
  have hat : atoi "" = 0 := by decide
  have hpass : ∀ d : XDeviceInfo,
      selector_pass (some "") (pre_device_is_id (some "")) d = decide (d.id = 0) := by
    intro d
    have hx : to_XID (atoi "") = 0 := by decide
    simp [selector_pass, hid, hx]
  refine ⟨hid, hat, ?_, ?_⟩
  · intro d
    rw [hpass d]
    simp
  · intro X verbose ld id nm ax
    exact find_device_filter "" _ hpass X verbose ld id nm ax

/-! ## More facts about the logs -/

theorem xlib_calls_eq_filterMap (l : List Event) : xlib_calls l = l.filterMap xlib_of := by
  induction l with
  | nil => rfl
  | cons e rest ih => cases e <;> simp [xlib_calls, xlib_of, List.filterMap_cons, ih]

theorem visit_class_filterMap {β : Type} (g : Event → Option β) (ld : Bool)
    (hg_trace : ∀ fmt args, g (.trace fmt args) = none)
    (hg_info : ld = true → ∀ fmt args, g (.info fmt args) = none)
    (d : XDeviceInfo) (s s1 : Scan) (any : XAnyClass)
    (h : visit_class ld d s any = some s1) :
    s1.log.filterMap g = s.log.filterMap g := by
  have hna : g (skip_not_absolute d) = none := hg_trace _ _
  have hno : g (skip_no_axes d) = none := hg_trace _ _
  cases any with
  | other =>
    simp only [visit_class, Option.some.injEq] at h
    rw [← h]
  | valuator V =>
    rcases V with ⟨mode, axes⟩
    rcases axes with _ | ⟨a0, _ | ⟨a1, rest⟩⟩
    · by_cases hm : mode = Absolute <;>
        simp [visit_class, XValuatorInfo.num_axes, hm] at h <;>
        simp [← h, List.filterMap_append, hna, hno]
    · by_cases hm : mode = Absolute <;>
        simp [visit_class, XValuatorInfo.num_axes, hm] at h <;>
        simp [← h, List.filterMap_append, hna, hno]
    · have hlen : ¬ (rest.length + 1 + 1 < 2) := by omega
      by_cases hm : mode = Absolute
      · by_cases h0 : a0.min_value = -1 ∧ a0.max_value = -1
        · simp [visit_class, XValuatorInfo.num_axes, hm, h0, hlen] at h
          simp [← h, List.filterMap_append, hno]
        · by_cases h1 : a1.min_value = -1 ∧ a1.max_value = -1
          · simp [visit_class, XValuatorInfo.num_axes, hm, h0, h1, hlen] at h
            simp [← h, List.filterMap_append, hno]
          · simp [visit_class, XValuatorInfo.num_axes, hm, h0, h1, hlen] at h
            cases ld with
            | false => simp [← h, record_found]
            | true => simp [← h, record_found, List.filterMap_append, hg_info rfl]
      · simp [visit_class, XValuatorInfo.num_axes, hm] at h
        simp [← h, List.filterMap_append, hna]

theorem scan_classes_filterMap {β : Type} (g : Event → Option β) (ld : Bool)
    (hg_trace : ∀ fmt args, g (.trace fmt args) = none)
    (hg_info : ld = true → ∀ fmt args, g (.info fmt args) = none)
    (d : XDeviceInfo) (cls : List XAnyClass) :
    ∀ s s1 : Scan, scan_classes ld d cls s = some s1 →
      s1.log.filterMap g = s.log.filterMap g := by
  induction cls with
  | nil =>
    intro s s1 h
    simp only [scan_classes, Option.some.injEq] at h
    rw [← h]
  | cons any rest ih =>
    intro s s1 h
    cases hv : visit_class ld d s any with
    | none => simp [scan_classes, hv] at h
    | some s2 =>
      simp only [scan_classes, hv] at h
      rw [ih s2 s1 h, visit_class_filterMap g ld hg_trace hg_info d s s2 any hv]

theorem scan_devices_filterMap {β : Type} (g : Event → Option β) (ld : Bool)
    (hg_trace : ∀ fmt args, g (.trace fmt args) = none)
    (hg_info : ld = true → ∀ fmt args, g (.info fmt args) = none)
    (pd : Option String) (isid : Bool) (devs : List XDeviceInfo) :
    ∀ s s1 : Scan, scan_devices pd isid ld devs s = some s1 →
      s1.log.filterMap g = s.log.filterMap g := by
  induction devs with
  | nil =>
    intro s s1 h
    simp only [scan_devices, Option.some.injEq] at h
    rw [← h]
  | cons d rest ih =>
    intro s s1 h
    by_cases hv : d.use = IsXKeyboard ∨ d.use = IsXPointer
    · simp only [scan_devices, hv, if_true] at h
      exact ih s s1 h
    · by_cases hp : selector_pass pd isid d = false
      · simp only [scan_devices, hv, hp, if_true, if_false] at h
        exact ih s s1 h
      · cases hc : scan_classes ld d d.inputclassinfo s with
        | none => simp [scan_devices, hv, hp, hc] at h
        | some s2 =>
          simp only [scan_devices, hv, hp, hc, if_false] at h
          rw [ih s2 s1 h, scan_classes_filterMap g ld hg_trace hg_info d _ s s2 hc]

theorem find_device_filterMap {β : Type} (g : Event → Option β) (ld : Bool)
    (hg_trace : ∀ fmt args, g (.trace fmt args) = none)
    (hg_info : ld = true → ∀ fmt args, g (.info fmt args) = none)
    (X : XServer) (verbose : Bool) (pd : Option String) (id : Nat) (nm : Option String)
    (ax : XYinfo) (flog : List Event) (f : Found)
    (h : find_device X verbose pd ld id nm ax = ⟨flog, .ret f⟩) :
    flog.filterMap g =
      (([Event.xlib .XOpenDisplay, Event.xlib .XQueryExtension] : List Event) ++
        version_log verbose X.version ++
        [Event.xlib .XListInputDevices, Event.xlib .XFreeDeviceList,
         Event.xlib .XCloseDisplay]).filterMap g := by
  unfold find_device at h
  by_cases hd : X.display = false
  · simp [hd] at h
  · by_cases hx : X.xinput = false
    · simp [hd, hx] at h
    · rw [if_neg hd, if_neg hx] at h
      cases hs : scan_devices pd (pre_device_is_id pd) ld X.devices
        { found := 0, device_id := id, device_name := nm, device_axys := ax,
          log := [.xlib .XOpenDisplay, .xlib .XQueryExtension] ++
            version_log verbose X.version ++
            [.trace "Skipping virtual master devices and devices without axis valuators.\n" [],
             .xlib .XListInputDevices] } with
      | none =>
        simp only [hs, Run.mk.injEq] at h
        exact Outcome.noConfusion h.2
      | some s =>
        simp only [hs, Run.mk.injEq] at h
        have := scan_devices_filterMap g ld hg_trace hg_info _ _ _ _ s hs
        have ht : List.filterMap g
            [Event.trace "Skipping virtual master devices and devices without axis valuators.\n" []]
            = [] := by
          simp [List.filterMap_cons, hg_trace]
        have e1 : ([Event.trace
            "Skipping virtual master devices and devices without axis valuators.\n" [],
            Event.xlib .XListInputDevices] : List Event) =
            [Event.trace "Skipping virtual master devices and devices without axis valuators.\n" []]
              ++ [Event.xlib .XListInputDevices] := rfl
        have e2 : ([Event.xlib .XListInputDevices, Event.xlib .XFreeDeviceList,
            Event.xlib .XCloseDisplay] : List Event) =
            [Event.xlib .XListInputDevices] ++
              [Event.xlib .XFreeDeviceList, Event.xlib .XCloseDisplay] := rfl
        rw [← h.1, List.filterMap_append, this, e2]
        simp only [e1, List.filterMap_append, ht, List.nil_append, List.append_assoc]

theorem version_log_views (verbose : Bool) (version : Option (Int × Int)) :
    (xlib_calls (version_log verbose version)).count XCall.XOpenDisplay = 0 ∧
    infos (version_log verbose version) = [] := by
  unfold version_log
  cases verbose with
  | false => exact ⟨rfl, rfl⟩
  | true =>
    cases version with
    | none => exact ⟨rfl, rfl⟩
    | some v =>
      obtain ⟨major, minor⟩ := v
      exact ⟨rfl, rfl⟩

theorem find_device_scan_count (X : XServer) (verbose : Bool) (pd : Option String)
    (ld : Bool) (id : Nat) (nm : Option String) (ax : XYinfo) (flog : List Event) (f : Found)
    (h : find_device X verbose pd ld id nm ax = ⟨flog, .ret f⟩) :
    scan_count flog = 1 := by
  have hx := find_device_filterMap xlib_of ld (fun _ _ => rfl) (fun _ _ _ => rfl)
    X verbose pd id nm ax flog f h
  unfold scan_count
  rw [xlib_calls_eq_filterMap, hx, ← xlib_calls_eq_filterMap, xlib_calls_append,
    xlib_calls_append, List.count_append, List.count_append,
    (version_log_views verbose X.version).1]
  decide

theorem find_device_infos (X : XServer) (verbose : Bool) (pd : Option String)
    (id : Nat) (nm : Option String) (ax : XYinfo) (flog : List Event) (f : Found)
    (h : find_device X verbose pd false id nm ax = ⟨flog, .ret f⟩) :
    infos flog = [] := by
  have hx := find_device_filterMap info_of false (fun _ _ => rfl)
    (fun hc => Bool.noConfusion hc) X verbose pd id nm ax flog f h
  have hv := (version_log_views verbose X.version).2
  unfold infos at hv ⊢
  rw [hx, List.filterMap_append, List.filterMap_append, hv]
  rfl

theorem infos_append (l1 l2 : List Event) : infos (l1 ++ l2) = infos l1 ++ infos l2 := by
  unfold infos
  exact List.filterMap_append l1 l2 info_of

theorem infos_of_diagnostic (l : List Event) (h : ∀ e ∈ l, e.is_diagnostic = true) :
    infos l = [] := by
  induction l with
  | nil => rfl
  | cons e rest ih =>
    have he := h e (List.mem_cons_self e rest)
    have hr := ih (fun x hx => h x (List.mem_cons_of_mem e hx))
    unfold infos at hr ⊢
    cases e <;> simp_all [List.filterMap_cons, info_of, Event.is_diagnostic]

theorem scan_count_append (l1 l2 : List Event) :
    scan_count (l1 ++ l2) = scan_count l1 + scan_count l2 := by
  unfold scan_count
  rw [xlib_calls_append, List.count_append]

theorem scan_count_of_diagnostic (l : List Event) (h : ∀ e ∈ l, e.is_diagnostic = true) :
    scan_count l = 0 := by
  unfold scan_count
  rw [xlib_calls_of_diagnostic l h]
  rfl

/-- The constructor calls of the chain: each call gets the name, the axes and
the options; the identifier goes to `CalibratorEvdev` alone. -/
theorem chain_calls (E : Env) (o : Opts) (d : Device) (ax : XYinfo) :
    ∀ k a, (k, a) ∈ constructions (strategy_chain E o d ax).log →
      a.device_name = d.device_name ∧ a.device_axys = ax ∧
      a.thr_misclick = o.thr_misclick ∧ a.thr_doubleclick = o.thr_doubleclick ∧
      a.output_type = o.output_type ∧ a.geometry = o.geometry ∧
      a.device_id = (if k = .Evdev then some d.device_id else none) := by
  unfold strategy_chain
  cases h1 : E.CalibratorUsbtouchscreen
    ⟨d.device_name, ax, none, o.thr_misclick, o.thr_doubleclick, o.output_type, o.geometry⟩ with
  | ok =>
    simp only [h1, constructions]
    intro k a h
    simp at h
    rcases h with ⟨rfl, rfl⟩
    simp
  | wrong w1 =>
    cases h2 : E.CalibratorEvdev
      ⟨d.device_name, ax, some d.device_id, o.thr_misclick, o.thr_doubleclick, o.output_type,
        o.geometry⟩ with
    | ok =>
      simp only [h1, h2, constructions]
      intro k a h
      simp at h
      rcases h with ⟨rfl, rfl⟩ | ⟨rfl, rfl⟩ <;> simp
    | wrong w2 =>
      cases h3 : E.CalibratorXorgPrint
        ⟨d.device_name, ax, none, o.thr_misclick, o.thr_doubleclick, o.output_type,
          o.geometry⟩ with
      | ok =>
        simp only [h1, h2, h3, constructions]
        intro k a h
        simp at h
        rcases h with ⟨rfl, rfl⟩ | ⟨rfl, rfl⟩ | ⟨rfl, rfl⟩ <;> simp
      | wrong w3 =>
        simp only [h1, h2, h3, constructions]
        intro k a h
        simp at h
        rcases h with ⟨rfl, rfl⟩ | ⟨rfl, rfl⟩ | ⟨rfl, rfl⟩ <;> simp

theorem chain_infos_and_exit (E : Env) (o : Opts) (d : Device) (ax : XYinfo) :
    infos (strategy_chain E o d ax).log = [] ∧
    ∀ status, (strategy_chain E o d ax).out ≠ .exit status := by
  unfold strategy_chain
  cases h1 : E.CalibratorUsbtouchscreen
    ⟨d.device_name, ax, none, o.thr_misclick, o.thr_doubleclick, o.output_type, o.geometry⟩ with
  | ok =>
    simp only [h1]
    exact ⟨rfl, fun _ h => Outcome.noConfusion h⟩
  | wrong w1 =>
    cases h2 : E.CalibratorEvdev
      ⟨d.device_name, ax, some d.device_id, o.thr_misclick, o.thr_doubleclick, o.output_type,
        o.geometry⟩ with
    | ok =>
      simp only [h1, h2]
      exact ⟨rfl, fun _ h => Outcome.noConfusion h⟩
    | wrong w2 =>
      cases h3 : E.CalibratorXorgPrint
        ⟨d.device_name, ax, none, o.thr_misclick, o.thr_doubleclick, o.output_type,
          o.geometry⟩ with
      | ok =>
        simp only [h1, h2, h3]
        exact ⟨rfl, fun _ h => Outcome.noConfusion h⟩
      | wrong w3 =>
        simp only [h1, h2, h3]
        exact ⟨rfl, fun _ h => Outcome.noConfusion h⟩

theorem apply_precalib_infos (o : Opts) (ax : XYinfo) : infos (apply_precalib o ax).2 = [] := by
  unfold apply_precalib
  cases o.precalib <;> rfl

theorem apply_precalib_axys (o : Opts) (ax : XYinfo) :
    (apply_precalib o ax).1 = (if o.precalib then merge_spec o.pre_axys ax else ax) := by
  unfold apply_precalib
  cases o.precalib <;> simp [override_axys_eq_merge]

/-! ## Selection: claims C12, C14 and C15 -/

/-- C12, refuted as stated: the argument list `--device --list` contains
`--list` and not `--fake` and is read without error, but there `--list` is
the value of `--device`: the list flag stays clear, the selector names no
device and the run ends with `exit(1)`. -/
theorem list_only_counterexample :
    "--list" ∈ [prog, "--device", "--list"] ∧ "--fake" ∉ [prog, "--device", "--list"] ∧
    (parse_args (env_fallback (server [touchscreen])) [prog, "--device", "--list"]).out =
      .ret ⟨false, false, false, false, unset_axys, some "--list", none, 15, 7, .OUTYPE_AUTO⟩ ∧
    (make_calibrator (env_fallback (server [touchscreen])) [prog, "--device", "--list"]).out =
      .exit 1 := by
  decide

/-- C12, as amended: whenever the arguments are read without error and leave
the list flag set and the fake flag clear, and the scan returns, the run of
`make_calibrator` is the parse log, the log of one scan and, for count 0, one
error message, and then `exit(0)`, whatever the count: the display is opened
once and no calibrator constructor is called. -/
theorem list_only_exit (E : Env) (argv : List String) (o : Opts) (plog flog : List Event)
    (f : Found)
    (hp : parse_args E argv = ⟨plog, .ret o⟩)
    (hl : o.list_devices = true) (hfk : o.fake = false)
    (hf : find_device E.X o.verbose o.pre_device o.list_devices (to_XID (-1)) none
      E.XYinfo_default = ⟨flog, .ret f⟩) :
    make_calibrator E argv =
      ⟨plog ++ (flog ++
        (if f.found = 0 then [.error "No calibratable devices found.\n" []] else [])),
       .exit 0⟩ ∧
    scan_count (make_calibrator E argv).log = 1 ∧
    constructions (make_calibrator E argv).log = [] := by
  have hd : choose_device E o =
      ⟨flog ++ (if f.found = 0 then [.error "No calibratable devices found.\n" []] else []),
       .exit 0⟩ := by
    have hf1 := hf
    rw [hl] at hf1
    simp [choose_device, hfk, hf1, hl]
  have hm : make_calibrator E argv =
      ⟨plog ++ (flog ++
        (if f.found = 0 then [.error "No calibratable devices found.\n" []] else [])),
       .exit 0⟩ := by
    simp [make_calibrator, hp, after_parse, hd]
  have hpl := parse_args_log E argv
  rw [hp] at hpl
  have hfl : constructions flog = [] := by
    have := find_device_constructions E.X o.verbose o.pre_device o.list_devices
      (to_XID (-1)) none E.XYinfo_default
    rwa [hf] at this
  have hsc := find_device_scan_count E.X o.verbose o.pre_device o.list_devices
    (to_XID (-1)) none E.XYinfo_default flog f hf
  refine ⟨hm, ?_, ?_⟩
  · rw [hm]
    simp only [scan_count_append, scan_count_of_diagnostic plog hpl, hsc]
    split_ifs <;> rfl
  · rw [hm]
    simp only [constructions_append, constructions_of_diagnostic plog hpl, hfl,
      List.nil_append]
    split_ifs <;> rfl

/-- C12, as amended, at `--list` with a touchscreen attached. -/
theorem list_only_exit_witness :
    parse_args (env_fallback (server [touchscreen])) [prog, "--list"] =
      ⟨[], .ret ⟨false, true, false, false, unset_axys, none, none, 15, 7, .OUTYPE_AUTO⟩⟩ ∧
    (make_calibrator (env_fallback (server [touchscreen])) [prog, "--list"]).out = .exit 0 ∧
    scan_count (make_calibrator (env_fallback (server [touchscreen])) [prog, "--list"]).log = 1 ∧
    constructions (make_calibrator (env_fallback (server [touchscreen])) [prog, "--list"]).log
      = [] :=
  ⟨by decide, by decide,
   (list_only_exit (env_fallback (server [touchscreen])) [prog, "--list"]
      ⟨false, true, false, false, unset_axys, none, none, 15, 7, .OUTYPE_AUTO⟩ []
      (find_device (server [touchscreen]) false none true (to_XID (-1)) none unset_axys).log
      ⟨1, 12, some "touchscreen", XYinfo.mk4 0 100 0 200⟩
      (by decide) rfl rfl (by decide)).2⟩

/-- C14: the chain keeps the order and stops at the first success. Once the
arguments are read and the device is chosen: if `CalibratorUsbtouchscreen`
succeeds, it is the only constructor called, no rejection is traced and its
instance is returned; if it raises and `CalibratorEvdev` succeeds, the log
ends with the first call, one rejection trace and the second call, the Evdev
instance is returned and `CalibratorXorgPrint` is not called. -/
theorem short_circuit (E : Env) (argv : List String) (o : Opts) (plog : List Event)
    (d : Device) (dlog : List Event)
    (hp : parse_args E argv = ⟨plog, .ret o⟩) (hd : choose_device E o = ⟨dlog, .ret d⟩) :
    (E.CalibratorUsbtouchscreen
        ⟨d.device_name, (apply_precalib o d.device_axys).1, none, o.thr_misclick,
         o.thr_doubleclick, o.output_type, o.geometry⟩ = .ok →
      make_calibrator E argv =
        ⟨plog ++ (dlog ++ (apply_precalib o d.device_axys).2 ++
          [.construct .Usbtouchscreen
            ⟨d.device_name, (apply_precalib o d.device_axys).1, none, o.thr_misclick,
             o.thr_doubleclick, o.output_type, o.geometry⟩]),
         .ret ⟨.Usbtouchscreen,
            ⟨d.device_name, (apply_precalib o d.device_axys).1, none, o.thr_misclick,
             o.thr_doubleclick, o.output_type, o.geometry⟩⟩⟩) ∧
    (∀ w, E.CalibratorUsbtouchscreen
        ⟨d.device_name, (apply_precalib o d.device_axys).1, none, o.thr_misclick,
         o.thr_doubleclick, o.output_type, o.geometry⟩ = .wrong w →
      E.CalibratorEvdev
        ⟨d.device_name, (apply_precalib o d.device_axys).1, some d.device_id, o.thr_misclick,
         o.thr_doubleclick, o.output_type, o.geometry⟩ = .ok →
      make_calibrator E argv =
        ⟨plog ++ (dlog ++ (apply_precalib o d.device_axys).2 ++
          [.construct .Usbtouchscreen
            ⟨d.device_name, (apply_precalib o d.device_axys).1, none, o.thr_misclick,
             o.thr_doubleclick, o.output_type, o.geometry⟩,
           .trace "Not usbtouchscreen calibrator: %s\n" [.str (some w)],
           .construct .Evdev
            ⟨d.device_name, (apply_precalib o d.device_axys).1, some d.device_id,
             o.thr_misclick, o.thr_doubleclick, o.output_type, o.geometry⟩]),
         .ret ⟨.Evdev,
            ⟨d.device_name, (apply_precalib o d.device_axys).1, some d.device_id,
             o.thr_misclick, o.thr_doubleclick, o.output_type, o.geometry⟩⟩⟩) := by
  refine ⟨?_, ?_⟩
  · intro h1
    rw [make_calibrator_eq E argv o plog d dlog hp hd]
    simp only [strategy_chain, h1]
  · intro w h1 h2
    rw [make_calibrator_eq E argv o plog d dlog hp hd]
    simp only [strategy_chain, h1, h2]

/-- C14 at a touchscreen: where the first constructor accepts, one call; where
it rejects and the second accepts, two calls and one rejection trace. -/
theorem short_circuit_witness :
    (make_calibrator (env_usb (server [touchscreen])) [prog]).out =
      .ret ⟨.Usbtouchscreen,
        ⟨some "touchscreen", XYinfo.mk4 0 100 0 200, none, 15, 7, .OUTYPE_AUTO, none⟩⟩ ∧
    constructions (make_calibrator (env_usb (server [touchscreen])) [prog]).log =
      [(.Usbtouchscreen,
        ⟨some "touchscreen", XYinfo.mk4 0 100 0 200, none, 15, 7, .OUTYPE_AUTO, none⟩)] ∧
    make_calibrator (env_evdev (server [touchscreen])) [prog] =
      ⟨[] ++ ((choose_device (env_evdev (server [touchscreen]))
            (Opts.init (env_evdev (server [touchscreen])))).log ++ [] ++
        [.construct .Usbtouchscreen
          ⟨some "touchscreen", XYinfo.mk4 0 100 0 200, none, 15, 7, .OUTYPE_AUTO, none⟩,
         .trace "Not usbtouchscreen calibrator: %s\n" [.str (some "Not a usbtouchscreen device")],
         .construct .Evdev
          ⟨some "touchscreen", XYinfo.mk4 0 100 0 200, some 12, 15, 7, .OUTYPE_AUTO, none⟩]),
       .ret ⟨.Evdev,
          ⟨some "touchscreen", XYinfo.mk4 0 100 0 200, some 12, 15, 7, .OUTYPE_AUTO, none⟩⟩⟩ :=
  ⟨by decide, by decide,
   (short_circuit (env_evdev (server [touchscreen])) [prog]
      (Opts.init (env_evdev (server [touchscreen]))) []
      ⟨12, some "touchscreen", XYinfo.mk4 0 100 0 200⟩
      (choose_device (env_evdev (server [touchscreen]))
        (Opts.init (env_evdev (server [touchscreen])))).log
      (by decide) (by decide)).2 "Not a usbtouchscreen device" rfl rfl⟩

/-- C15: when the arguments leave the fake and list flags clear and the scan
returns a count above 1, `make_calibrator` does not exit: the device chosen is
the one the scan handed back (the last match), the log holds exactly one
`info` message, the warning that names that device and recommends `--device`,
and every constructor call gets that name and those axes (merged with the
precalibration overrides when `--precalib` was given), `CalibratorEvdev` also
that identifier. -/
theorem multiple_matches_proceed (E : Env) (argv : List String) (o : Opts)
    (plog flog : List Event) (f : Found)
    (hp : parse_args E argv = ⟨plog, .ret o⟩)
    (hfake : o.fake = false) (hlist : o.list_devices = false)
    (hf : find_device E.X o.verbose o.pre_device o.list_devices (to_XID (-1)) none
      E.XYinfo_default = ⟨flog, .ret f⟩)
    (hmany : 1 < f.found) :
    choose_device E o =
      ⟨flog ++ [multiple_devices_warning f.device_name] ++
        [.trace "Selected device: %s\n" [.str f.device_name]],
       .ret ⟨f.device_id, f.device_name, f.device_axys⟩⟩ ∧
    (∀ status, (make_calibrator E argv).out ≠ .exit status) ∧
    infos (make_calibrator E argv).log =
      [.info "Warning: multiple calibratable devices found, calibrating last one (%s)\n\tuse --device to select another one.\n"
        [.str f.device_name]] ∧
    constructions (make_calibrator E argv).log ≠ [] ∧
    (∀ k a, (k, a) ∈ constructions (make_calibrator E argv).log →
      a.device_name = f.device_name ∧
      a.device_axys = (if o.precalib then merge_spec o.pre_axys f.device_axys
        else f.device_axys) ∧
      a.device_id = (if k = .Evdev then some f.device_id else none)) := by
  have hf1 := hf
  rw [hlist] at hf1
  have hne : ¬ f.found = 0 := by omega
  have hd : choose_device E o =
      ⟨flog ++ [multiple_devices_warning f.device_name] ++
        [.trace "Selected device: %s\n" [.str f.device_name]],
       .ret ⟨f.device_id, f.device_name, f.device_axys⟩⟩ := by
    simp [choose_device, hfake, hf1, hlist, hne, hmany]
  have hpl := parse_args_log E argv
  rw [hp] at hpl
  have hfi : infos flog = [] :=
    find_device_infos E.X o.verbose o.pre_device (to_XID (-1)) none E.XYinfo_default flog f hf1
  have hfc : constructions flog = [] := by
    have := find_device_constructions E.X o.verbose o.pre_device o.list_devices
      (to_XID (-1)) none E.XYinfo_default
    rwa [hf] at this
  have hch := chain_infos_and_exit E o ⟨f.device_id, f.device_name, f.device_axys⟩
    (apply_precalib o f.device_axys).1
  have hcc := chain_constructions E o ⟨f.device_id, f.device_name, f.device_axys⟩
    (apply_precalib o f.device_axys).1
  have hcall := chain_calls E o ⟨f.device_id, f.device_name, f.device_axys⟩
    (apply_precalib o f.device_axys).1
  have hw : infos [multiple_devices_warning f.device_name] =
      [.info "Warning: multiple calibratable devices found, calibrating last one (%s)\n\tuse --device to select another one.\n"
        [.str f.device_name]] := rfl
  have ht : infos [Event.trace "Selected device: %s\n" [.str f.device_name]] = [] := rfl
  have hwc : constructions [multiple_devices_warning f.device_name] = [] := rfl
  have htc : constructions [Event.trace "Selected device: %s\n" [.str f.device_name]] = [] :=
    rfl
  refine ⟨hd, ?_, ?_, ?_, ?_⟩
  · rw [make_calibrator_eq E argv o plog _ _ hp hd]
    exact hch.2
  · rw [make_calibrator_eq E argv o plog _ _ hp hd]
    simp only [infos_append, infos_of_diagnostic plog hpl, hfi, hw, ht,
      apply_precalib_infos, hch.1, List.nil_append, List.append_nil]
  · rw [make_calibrator_eq E argv o plog _ _ hp hd]
    simp only [constructions_append, constructions_of_diagnostic plog hpl, hfc, hwc, htc,
      (apply_precalib_log o f.device_axys).1, List.nil_append]
    exact hcc.1
  · rw [make_calibrator_eq E argv o plog _ _ hp hd]
    simp only [constructions_append, constructions_of_diagnostic plog hpl, hfc, hwc, htc,
      (apply_precalib_log o f.device_axys).1, List.nil_append]
    intro k a h
    have := hcall k a h
    rw [apply_precalib_axys] at this
    exact ⟨this.1, this.2.1, this.2.2.2.2.2.2⟩

/-- C15 at a touchscreen followed by a panel: the panel, the last match, is
calibrated after one warning. -/
theorem multiple_matches_proceed_witness :
    (find_device (server [touchscreen, panel]) false none false (to_XID (-1)) none
      unset_axys).out = .ret ⟨2, 10, some "panel", XYinfo.mk4 0 100 0 100⟩ ∧
    infos (make_calibrator (env_fallback (server [touchscreen, panel])) [prog]).log =
      [.info "Warning: multiple calibratable devices found, calibrating last one (%s)\n\tuse --device to select another one.\n"
        [.str (some "panel")]] ∧
    (make_calibrator (env_fallback (server [touchscreen, panel])) [prog]).out =
      .ret ⟨.XorgPrint,
        ⟨some "panel", XYinfo.mk4 0 100 0 100, none, 15, 7, .OUTYPE_AUTO, none⟩⟩ :=
  ⟨by decide,
   (multiple_matches_proceed (env_fallback (server [touchscreen, panel])) [prog]
      (Opts.init (env_fallback (server [touchscreen, panel]))) []
      (find_device (server [touchscreen, panel]) false none false (to_XID (-1)) none
        unset_axys).log
      ⟨2, 10, some "panel", XYinfo.mk4 0 100 0 100⟩
      (by decide) rfl rfl (by decide) (by decide)).2.2.1,
   by decide⟩

/-! ## Facts about the argument loop -/

theorem StepInv_ite (Q : Nat → Opts → Prop) (c : Prop) [Decidable c] (a b : Run (Nat × Opts))
    (ha : c → StepInv Q a) (hb : ¬ c → StepInv Q b) : StepInv Q (if c then a else b) := by
  split
  · exact ha ‹_›
  · exact hb ‹_›

theorem StepInv_dite (Q : Nat → Opts → Prop) (c : Prop) [Decidable c]
    (a : c → Run (Nat × Opts)) (b : ¬ c → Run (Nat × Opts))
    (ha : ∀ h, StepInv Q (a h)) (hb : ∀ h, StepInv Q (b h)) : StepInv Q (dite c a b) := by
  split
  · exact ha _
  · exact hb _

theorem StepInv_ret (Q : Nat → Opts → Prop) (l : List Event) (p : Nat × Opts)
    (h : Q p.1 p.2) : StepInv Q ⟨l, .ret p⟩ := h

theorem StepInv_exit (Q : Nat → Opts → Prop) (l : List Event) (status : Int) :
    StepInv Q ⟨l, .exit status⟩ := trivial

theorem read_int_index (argv : List String) (i : Nat) (old : Int) :
    i ≤ (read_int argv i old).1 ∧
    (i < argv.length → (read_int argv i old).1 < argv.length) := by
  unfold read_int
  split
  · simp only
    omega
  · simp only
    omega

theorem read_precalib_index (argv : List String) (i : Nat) (o : Opts) :
    i ≤ (read_precalib argv i o).1 ∧
    (i < argv.length → (read_precalib argv i o).1 < argv.length) := by
  unfold read_precalib
  simp only
  have h1 := read_int_index argv i o.pre_axys.x.min
  have h2 := read_int_index argv (read_int argv i o.pre_axys.x.min).1 o.pre_axys.x.max
  have h3 := read_int_index argv
    (read_int argv (read_int argv i o.pre_axys.x.min).1 o.pre_axys.x.max).1 o.pre_axys.y.min
  have h4 := read_int_index argv
    (read_int argv (read_int argv (read_int argv i o.pre_axys.x.min).1 o.pre_axys.x.max).1
      o.pre_axys.y.min).1 o.pre_axys.y.max
  refine ⟨by omega, fun hi => ?_⟩
  exact h4.2 (h3.2 (h2.2 (h1.2 hi)))

/-- The body of the loop never moves the index back, and ends by return or
exit only. -/
theorem parse_step_index (E : Env) (argv : List String) (i : Nat) (a : String) (o : Opts) :
    StepInv (fun i1 _ => i ≤ i1) (parse_step E argv i a o) := by
  unfold parse_step
  repeat' first
    | exact StepInv_exit _ _ _
    | apply StepInv_ite
    | apply StepInv_dite
    | intro _
  all_goals first
    | exact StepInv_ret _ _ _ (Nat.le_refl _)
    | exact StepInv_ret _ _ _ (Nat.le_succ _)
    | exact StepInv_ret _ _ _ (read_precalib_index argv i o).1

/-- With the index inside `argv`, and `--geometry` followed by a value, the
body of the loop leaves the index inside `argv`. -/
theorem parse_step_bound (E : Env) (argv : List String) (i : Nat) (a : String) (o : Opts)
    (hi : i < argv.length) (hg : a = "--geometry" → i + 1 < argv.length) :
    StepInv (fun i1 _ => i1 + 1 ≤ argv.length) (parse_step E argv i a o) := by
  have hpre : (read_precalib argv i o).1 + 1 ≤ argv.length :=
    (read_precalib_index argv i o).2 hi
  unfold parse_step
  repeat' first
    | exact StepInv_exit _ _ _
    | apply StepInv_ite
    | apply StepInv_dite
    | intro _
  all_goals first
    | exact StepInv_ret _ _ _ hpre
    | exact StepInv_ret _ _ _ (by dsimp only; omega)
    | exact StepInv_ret _ _ _ (by have hh := hg (by assumption); dsimp only; omega)

theorem parse_loop_fuel (E : Env) (argv : List String) :
    ∀ (fuel i : Nat) (o : Opts) (log : List Event), 1 ≤ fuel → argv.length + 1 ≤ i + fuel →
      (parse_loop E argv fuel i o log).out ≠ .out_of_fuel := by
  intro fuel
  induction fuel with
  | zero => intro i o log h1; omega
  | succ n ih =>
    intro i o log _ hb h
    unfold parse_loop at h
    by_cases hi : i = argv.length
    · simp [hi] at h
    · simp only [hi, if_false] at h
      cases ha : argv[i]? with
      | none => simp [ha] at h
      | some a =>
        have hlt : i < argv.length := (List.getElem?_eq_some_iff.mp ha).1
        have hst := parse_step_index E argv i a o
        simp only [ha] at h
        unfold StepInv at hst
        cases hout : (parse_step E argv i a o).out with
        | ret r =>
          obtain ⟨i1, o1⟩ := r
          simp only [hout] at h hst
          exact ih (i1 + 1) o1 _ (by omega) (by omega) h
        | exit status => simp [hout] at h
        | fault => simp [hout] at hst
        | raised what => simp [hout] at hst
        | out_of_fuel => simp [hout] at hst

/-- The argument loop of the model always comes to an end: the bound on the
number of passes is never reached. -/
theorem parse_args_fuel (E : Env) (argv : List String) :
    (parse_args E argv).out ≠ .out_of_fuel :=
  parse_loop_fuel E argv _ _ _ _ (by omega) (by omega)

theorem parse_loop_no_fault (E : Env) (argv : List String)
    (hg : ∀ i, argv[i]? = some "--geometry" → i + 1 < argv.length) :
    ∀ (fuel i : Nat) (o : Opts) (log : List Event), i ≤ argv.length →
      (parse_loop E argv fuel i o log).out ≠ .fault := by
  intro fuel
  induction fuel with
  | zero => intro i o log _ h; simp [parse_loop] at h
  | succ n ih =>
    intro i o log hle h
    unfold parse_loop at h
    by_cases hi : i = argv.length
    · simp [hi] at h
    · simp only [hi, if_false] at h
      cases ha : argv[i]? with
      | none =>
        have := List.getElem?_eq_none_iff.mp ha
        omega
      | some a =>
        have hlt : i < argv.length := (List.getElem?_eq_some_iff.mp ha).1
        have hst := parse_step_bound E argv i a o hlt (fun e => hg i (e ▸ ha))
        simp only [ha] at h
        unfold StepInv at hst
        cases hout : (parse_step E argv i a o).out with
        | ret r =>
          obtain ⟨i1, o1⟩ := r
          simp only [hout] at h hst
          exact ih (i1 + 1) o1 _ hst h
        | exit status => simp [hout] at h
        | fault => simp [hout] at hst
        | raised what => simp [hout] at hst
        | out_of_fuel => simp [hout] at hst

/-- When the program name is present and every `--geometry` is followed by
another argument, the argument loop reads `argv` inside its bounds only. -/
theorem parse_args_no_fault (E : Env) (argv : List String) (hne : argv ≠ [])
    (hg : ∀ i, argv[i]? = some "--geometry" → i + 1 < argv.length) :
    (parse_args E argv).out ≠ .fault := by
  apply parse_loop_no_fault E argv hg
  cases argv with
  | nil => exact absurd rfl hne
  | cons a rest => simp

theorem parse_step_unknown (E : Env) (argv : List String) (i : Nat) (a : String) (o : Opts)
    (h : a ∉ known_options) :
    parse_step E argv i a o =
      ⟨[.error "Unknown option: %s\n\n" [.str (some a)], .usage argv[0]? o.thr_misclick],
       .exit 0⟩ := by
  simp only [known_options, List.mem_cons, List.mem_singleton, not_or, List.mem_nil_iff,
    or_false] at h
  obtain ⟨h1, h2, h3, h4, h5, h6, h7, h8, h9, h10, h11⟩ := h
  unfold parse_step
  rw [if_neg (not_or.mpr ⟨h1, h2⟩), if_neg (not_or.mpr ⟨h3, h4⟩), if_neg h5, if_neg h6,
    if_neg h7, if_neg h8, if_neg h9, if_neg h10, if_neg h11]

/-- C11, the code at its failing input and at the sibling paths: an unknown
option ends the run with `exit(0)`, after the error message and the usage
text, like the help path; a missing argument to `--device`, `--misclick` or
`--output-type` and an invalid `--output-type` value end it with `exit(1)`. -/
theorem unknown_option_exit_status :
    make_calibrator (env_usb (server [touchscreen])) [prog, "--bogus"] =
      ⟨[.error "Unknown option: %s\n\n" [.str (some "--bogus")], .usage (some prog) 15],
       .exit 0⟩ ∧
    (make_calibrator (env_usb (server [touchscreen])) [prog, "--help"]).out = .exit 0 ∧
    (make_calibrator (env_usb (server [touchscreen])) [prog, "-h"]).out = .exit 0 ∧
    (make_calibrator (env_usb (server [touchscreen])) [prog, "--device"]).out = .exit 1 ∧
    (make_calibrator (env_usb (server [touchscreen])) [prog, "--misclick"]).out = .exit 1 ∧
    (make_calibrator (env_usb (server [touchscreen])) [prog, "--output-type"]).out = .exit 1 ∧
    (make_calibrator (env_usb (server [touchscreen])) [prog, "--output-type", "bogus"]).out =
      .exit 1 := by
  decide

/-- C16, the code at its failing input and at the sibling options: with
`--geometry` as the last argument the loop takes `argv[argc]` as the geometry,
steps past the end test `i != argc` and reads `argv[argc + 1]`, outside the
argument list; `--device`, `--misclick` and `--output-type` as the last
argument end with `exit(1)`, `--precalib` as the last argument and
`--geometry` followed by a value are read inside the list. -/
theorem geometry_last_reads_past_argv :
    parse_args (env_usb (server [touchscreen])) [prog, "--geometry"] = ⟨[], .fault⟩ ∧
    (make_calibrator (env_usb (server [touchscreen])) [prog, "--geometry"]).out = .fault ∧
    (parse_args (env_usb (server [touchscreen])) [prog, "--device"]).out = .exit 1 ∧
    (parse_args (env_usb (server [touchscreen])) [prog, "--misclick"]).out = .exit 1 ∧
    (parse_args (env_usb (server [touchscreen])) [prog, "--output-type"]).out = .exit 1 ∧
    (parse_args (env_usb (server [touchscreen])) [prog, "--precalib"]).out =
      .ret ⟨false, false, false, true, unset_axys, none, none, 15, 7, .OUTYPE_AUTO⟩ ∧
    (parse_args (env_usb (server [touchscreen])) [prog, "--geometry", "800x600+0+0"]).out =
      .ret ⟨false, false, false, false, unset_axys, none, some "800x600+0+0", 15, 7,
        .OUTYPE_AUTO⟩ := by
  decide

end XinputCalibrator
